import Mathlib

/-!
# dyn-client: the CNAME publisher of `main.go`

A shallow embedding of `main.go`: the five methods of `dynHTTPClient` and the
driver `main`.  The `net/http` and `encoding/json` libraries are the boundary of
the embedding: a request is the data handed to `http.NewRequest` (method, URL,
headers in the order of `Header.Add`, and the value given to `json.Marshal`);
whether `http.NewRequest` accepts a URL is a parameter `urlOk` of the methods that
build their URL from a flag or from a record path, and what `httpClient.Do` followed
by `decoder.Decode` yields for a request is supplied by the environment.
-/

namespace DynClient

/-! ## Data model -/

/-- A decoded JSON value as `encoding/json` stores it in an `interface{}`:
`nil`, `bool`, `float64`, `string`, `[]interface{}` or `map[string]interface{}`.
The same type carries the values a request body is marshalled from, where `num`
also stands for a Go integer constant and `obj` for a `map[string]string`. -/
inductive JVal where
  | null
  | bool (b : Bool)
  | num (x : ℚ)
  | str (s : String)
  | arr (xs : List JVal)
  | obj (kvs : List (String × JVal))

/-- Go map indexing `m[k]` on a `map[string]interface{}`: the value stored under
`k`, and `nil` when the key is absent. -/
def index : List (String × JVal) → String → JVal
  | [], _ => .null
  | (key, v) :: rest, k => if key = k then v else index rest k

/-- The Go comparison `v != s` of an `interface{}` with a string constant: false
only when the dynamic value is the string `s`. -/
def neStr : JVal → String → Bool
  | .str t, s => decide (t ≠ s)
  | _, _ => true

/-- A fragment of formatted text: literal characters, or the `%v` rendering of a
value (left symbolic). -/
inductive Piece where
  | lit (s : String)
  | v (x : JVal)

/-- The result of `fmt.Sprintf`: its fragments in order. -/
abbrev Text := List Piece

/-- An `error` value of the program. -/
inductive GoError where
  /-- the error returned by `httpClient.Do` -/
  | transport (e : String)
  /-- the error returned by `decoder.Decode` -/
  | decode (e : String)
  /-- the value of `errors.New(fmt.Sprintf(...))` -/
  | new (msg : Text)

/-- What stops a Go function without a return. -/
inductive Panic where
  /-- a failed type assertion `x.(T)` -/
  | typeAssertion
  /-- a nil pointer dereference: `req.Header.Add` on the nil request that
  `http.NewRequest` returns with its discarded error -/
  | nilDeref
  /-- the `panic(err)` of `main` -/
  | error (e : GoError)

/-- The way a Go function call ends: it returns a value or it panics. -/
inductive Run (α : Type) where
  | returns (a : α)
  | panics (p : Panic)

/-- The command-line flags, after `flag.Parse()`. -/
structure Flags where
  customerName : String
  userName : String
  password : String
  host : String
  fqdn : String
  zone : String

/-- The receiver of the methods; `httpClient` is the environment. -/
structure dynHTTPClient where
  token : String

/-- An HTTP request as built by `http.NewRequest` and `req.Header.Add`; `body`
is the value handed to `json.Marshal`, `none` for a nil body. -/
structure Request where
  method : String
  url : String
  header : List (String × String)
  body : Option JVal

/-- What `httpClient.Do(req)` and `decoder.Decode(&respMap)` give for one request. -/
inductive Reply where
  /-- `Do` returned a non-nil error -/
  | doErr (e : String)
  /-- `Decode` returned a non-nil error -/
  | decodeErr (e : String)
  /-- the response body decoded into `respMap` -/
  | decoded (respMap : List (String × JVal))

/-- The methods of the `dynClient` interface, `updateCNAMERecord` with its argument. -/
inductive Method where
  | session
  | cnameRecord
  | createCNAMERecord
  | updateCNAMERecord (record : String)
  | publish

/-- The observable steps of a run, logged in the order they happen. -/
inductive Event where
  /-- `main` calls a client method -/
  | call (m : Method)
  /-- `httpClient.Do(req)` is issued -/
  | send (req : Request)
  /-- `fmt.Printf` writes to standard output -/
  | print (t : Text)
  /-- a client method returns to `main` with this `error` value -/
  | ret (m : Method) (err : Option GoError)
  /-- the assignment `dynClient.token = token` -/
  | setToken (t : String)

/-- What a method body does once the reply is known: what it prints and how it ends. -/
structure Eff (α : Type) where
  printed : List Text
  result : Run α

/-- A finished method call: the environment afterwards, the events of the call in
order, and how the call ended. -/
structure Out (σ α : Type) where
  world : σ
  events : List Event
  result : Run α

/-! ## The client methods -/

/-- The request of `session` (lines 35-41). -/
def sessionRequest (f : Flags) : Request :=
  { method := "POST"
    url := "https://api.dynect.net/REST/Session/"
    header := [("Content-Type", "application/json")]
    body := some (.obj [("customer_name", .str f.customerName),
                        ("user_name", .str f.userName),
                        ("password", .str f.password)]) }

/-- The body of `session` after `Do` (lines 42-57). -/
def sessionReply : Reply → Eff (String × Option GoError)
  | .doErr e => ⟨[], .returns ("", some (.transport e))⟩
  | .decodeErr e => ⟨[], .returns ("", some (.decode e))⟩
  | .decoded respMap =>
    if neStr (index respMap "status") "success" then
      ⟨[], .returns ("", some (.new [.lit "dyn: login was not successful: ",
                                      .v (index respMap "msgs")]))⟩
    else
      let out : List Text := [[.lit "Resp map: ", .v (.obj respMap), .lit "\n"]]
      match index respMap "data" with
      | .obj data =>
        match index data "token" with
        | .str token => ⟨out, .returns (token, none)⟩
        | _ => ⟨out, .panics .typeAssertion⟩
      | _ => ⟨out, .panics .typeAssertion⟩

/-- The method `session`. Its URL is a constant that `http.NewRequest` accepts, so
the request is never nil. -/
def session {σ : Type} (Do : σ → Request → Reply × σ) (f : Flags) (_c : dynHTTPClient)
    (w : σ) : Out σ (String × Option GoError) :=
  let req := sessionRequest f
  let rw := Do w req
  let e := sessionReply rw.1
  { world := rw.2, events := .send req :: e.printed.map .print, result := e.result }

/-- The loop of `cnameRecord` over `msgsSlice` (lines 77-82): `some code` when the
loop returns `code` from the method, `none` when it runs to its end. -/
def scanMsgs : List JVal → Run (Option String)
  | [] => .returns none
  | .obj msgs :: rest =>
    match index msgs "ERR_CD" with
    | .str cd => if cd = "NOT_FOUND" then .returns (some cd) else scanMsgs rest
    | _ => .panics .typeAssertion
  | _ :: _ => .panics .typeAssertion

/-- The request of `cnameRecord` (lines 61-63). -/
def cnameRecordRequest (f : Flags) (c : dynHTTPClient) : Request :=
  { method := "GET"
    url := "https://api.dynect.net/REST/CNAMERecord/" ++ f.zone ++ "/" ++ f.fqdn ++ "/"
    header := [("Content-Type", "application/json"), ("Auth-Token", c.token)]
    body := none }

/-- The body of `cnameRecord` after `Do` (lines 64-89). -/
def cnameRecordReply : Reply → Eff (String × Option GoError)
  | .doErr e => ⟨[], .returns ("", some (.transport e))⟩
  | .decodeErr e => ⟨[], .returns ("", some (.decode e))⟩
  | .decoded respMap =>
    if neStr (index respMap "status") "success" then
      match index respMap "msgs" with
      | .arr msgsSlice =>
        match scanMsgs msgsSlice with
        | .returns (some cd) => ⟨[], .returns (cd, none)⟩
        | .returns none =>
          ⟨[], .returns ("", some (.new [.lit "dyn: could not get fqdn: ", .v (.obj respMap)]))⟩
        | .panics p => ⟨[], .panics p⟩
      | _ => ⟨[], .panics .typeAssertion⟩
    else
      match index respMap "data" with
      | .arr data =>
        match data with
        | [d] =>
          match d with
          | .str s => ⟨[], .returns (s, none)⟩
          | _ => ⟨[], .panics .typeAssertion⟩
        | _ =>
          ⟨[], .returns ("", some (.new [.lit "dyn: did not find exactly 1 record: ",
                                          .v (.arr data)]))⟩
      | _ => ⟨[], .panics .typeAssertion⟩

/-- The method `cnameRecord`. When `http.NewRequest` rejects the URL (line 61, error
discarded) the request is nil and line 62 panics before anything is sent. -/
def cnameRecord {σ : Type} (urlOk : String → Bool)
    (Do : σ → Request → Reply × σ)
    (f : Flags) (c : dynHTTPClient) (w : σ) : Out σ (String × Option GoError) :=
  let req := cnameRecordRequest f c
  if urlOk req.url then
    let rw := Do w req
    let e := cnameRecordReply rw.1
    { world := rw.2, events := .send req :: e.printed.map .print, result := e.result }
  else
    { world := w, events := [], result := .panics .nilDeref }

/-- The request of `createCNAMERecord` (lines 93-101). -/
def createCNAMERecordRequest (f : Flags) (c : dynHTTPClient) : Request :=
  let rdata : JVal := .obj [("cname", .str f.host)]
  let body : JVal := .obj [("rdata", rdata), ("ttl", .num 600)]
  { method := "POST"
    url := "https://api.dynect.net/REST/CNAMERecord/" ++ f.zone ++ "/" ++ f.fqdn ++ "/"
    header := [("Content-Type", "application/json"), ("Auth-Token", c.token)]
    body := some body }

/-- The body of `createCNAMERecord` after `Do` (lines 102-115). -/
def createCNAMERecordReply : Reply → Eff (Option GoError)
  | .doErr e => ⟨[], .returns (some (.transport e))⟩
  | .decodeErr e => ⟨[], .returns (some (.decode e))⟩
  | .decoded respMap =>
    if neStr (index respMap "status") "success" then
      ⟨[], .returns (some (.new [.lit "dyn: Failed to create CNAME: ",
                                  .v (index respMap "msgs")]))⟩
    else
      ⟨[], .returns none⟩

/-- The method `createCNAMERecord`. When `http.NewRequest` rejects the URL (line 99,
error discarded) the request is nil and line 100 panics before anything is sent. -/
def createCNAMERecord {σ : Type} (urlOk : String → Bool)
    (Do : σ → Request → Reply × σ)
    (f : Flags) (c : dynHTTPClient) (w : σ) : Out σ (Option GoError) :=
  let req := createCNAMERecordRequest f c
  if urlOk req.url then
    let rw := Do w req
    let e := createCNAMERecordReply rw.1
    { world := rw.2, events := .send req :: e.printed.map .print, result := e.result }
  else
    { world := w, events := [], result := .panics .nilDeref }

/-- The value `body` of `updateCNAMERecord` (lines 119-120). -/
def updateCNAMERecordBody (f : Flags) : JVal :=
  let rdata : JVal := .obj [("cname", .str f.host)]
  .obj [("rdata", rdata), ("ttl", .num 600)]

/-- The request of `updateCNAMERecord` (lines 127-129). -/
def updateCNAMERecordRequest (f : Flags) (c : dynHTTPClient) (record : String) : Request :=
  { method := "PUT"
    url := "https://api.dynect.net" ++ record
    header := [("Content-Type", "application/json"), ("Auth-Token", c.token)]
    body := some (updateCNAMERecordBody f) }

/-- The body of `updateCNAMERecord` after `Do` (lines 130-144). -/
def updateCNAMERecordReply : Reply → Eff (Option GoError)
  | .doErr e => ⟨[], .returns (some (.transport e))⟩
  | .decodeErr e => ⟨[], .returns (some (.decode e))⟩
  | .decoded respMap =>
    let out : List Text := [[.lit "Update response: ", .v (.obj respMap), .lit "\n"]]
    if neStr (index respMap "status") "success" then
      ⟨out, .returns (some (.new [.lit "dyn: Failed to update CNAME: ",
                                   .v (index respMap "msgs")]))⟩
    else
      ⟨out, .returns none⟩

/-- The method `updateCNAMERecord`: it prints the body and the record, then
exchanges the request. When `http.NewRequest` rejects the URL (line 127, error
discarded) the request is nil and line 128 panics after the two prints, before
anything is sent. -/
def updateCNAMERecord {σ : Type} (urlOk : String → Bool)
    (Do : σ → Request → Reply × σ)
    (f : Flags) (c : dynHTTPClient) (record : String) (w : σ) : Out σ (Option GoError) :=
  let req := updateCNAMERecordRequest f c record
  if urlOk req.url then
    let rw := Do w req
    let e := updateCNAMERecordReply rw.1
    { world := rw.2
      events := .print [.lit "Body: ", .v (updateCNAMERecordBody f), .lit "\n"]
        :: .print [.lit ("Record: " ++ record ++ "\n")]
        :: .send req :: e.printed.map .print
      result := e.result }
  else
    { world := w
      events := [.print [.lit "Body: ", .v (updateCNAMERecordBody f), .lit "\n"],
        .print [.lit ("Record: " ++ record ++ "\n")]]
      result := .panics .nilDeref }

/-- The request of `publish` (lines 148-155). -/
def publishRequest (f : Flags) (c : dynHTTPClient) : Request :=
  { method := "PUT"
    url := "https://api.dynect.net/REST/Zone/" ++ f.zone ++ "/"
    header := [("Content-Type", "application/json"), ("Auth-Token", c.token)]
    body := some (.obj [("publish", .str "true")]) }

/-- The text printed by line 169. -/
def confirmation (f : Flags) : Text :=
  [.lit ("Updated CNAME for " ++ f.fqdn ++ " to " ++ f.host ++ "\n")]

/-- The body of `publish` after `Do` (lines 156-170). -/
def publishReply (f : Flags) : Reply → Eff (Option GoError)
  | .doErr e => ⟨[], .returns (some (.transport e))⟩
  | .decodeErr e => ⟨[], .returns (some (.decode e))⟩
  | .decoded respMap =>
    if neStr (index respMap "status") "success" then
      ⟨[], .returns (some (.new [.lit "dyn: Failed publish: ", .v (index respMap "msgs")]))⟩
    else
      ⟨[confirmation f], .returns none⟩

/-- The method `publish`. When `http.NewRequest` rejects the URL (line 153, error
discarded) the request is nil and line 154 panics before anything is sent. -/
def publish {σ : Type} (urlOk : String → Bool)
    (Do : σ → Request → Reply × σ)
    (f : Flags) (c : dynHTTPClient) (w : σ) : Out σ (Option GoError) :=
  let req := publishRequest f c
  if urlOk req.url then
    let rw := Do w req
    let e := publishReply f rw.1
    { world := rw.2, events := .send req :: e.printed.map .print, result := e.result }
  else
    { world := w, events := [], result := .panics .nilDeref }

/-! ## The driver -/

/-- A finished run of `main`: the environment and the client at the end, the log,
and `none` when `main` returned, `some p` when it stopped on the panic `p`. -/
structure Exec (σ : Type) where
  world : σ
  client : dynHTTPClient
  events : List Event
  outcome : Option Panic

/-- Lines 197-201: the call of `publish` and the last print. -/
def mainPublish {σ : Type} (urlOk : String → Bool)
    (Do : σ → Request → Reply × σ)
    (f : Flags) (c : dynHTTPClient) (w : σ) (log : List Event) : Exec σ :=
  let p := publish urlOk Do f c w
  let log := log ++ .call .publish :: p.events
  match p.result with
  | .panics q => ⟨p.world, c, log, some q⟩
  | .returns (some err) => ⟨p.world, c, log ++ [.ret .publish (some err)], some (.error err)⟩
  | .returns none =>
    ⟨p.world, c, log ++ [.ret .publish none, .print [.lit "Succesfully published\n"]], none⟩

/-- Lines 185-196: the print of `currentFQDN` and the branch on it, then the rest. -/
def mainChange {σ : Type} (urlOk : String → Bool)
    (Do : σ → Request → Reply × σ)
    (f : Flags) (c : dynHTTPClient) (currentFQDN : String) (w : σ) (log : List Event) :
    Exec σ :=
  let log := log ++ [.print [.lit ("currentFQDN: " ++ currentFQDN ++ "\n")]]
  if currentFQDN = "NOT_FOUND" then
    let r := createCNAMERecord urlOk Do f c w
    let log := log ++ .call .createCNAMERecord :: r.events
    match r.result with
    | .panics q => ⟨r.world, c, log, some q⟩
    | .returns (some err) =>
      ⟨r.world, c, log ++ [.ret .createCNAMERecord (some err)], some (.error err)⟩
    | .returns none =>
      mainPublish urlOk Do f c r.world (log ++ [.ret .createCNAMERecord none])
  else
    let r := updateCNAMERecord urlOk Do f c currentFQDN w
    let log := log ++ .call (.updateCNAMERecord currentFQDN) :: r.events
    match r.result with
    | .panics q => ⟨r.world, c, log, some q⟩
    | .returns (some err) =>
      ⟨r.world, c, log ++ [.ret (.updateCNAMERecord currentFQDN) (some err)], some (.error err)⟩
    | .returns none =>
      mainPublish urlOk Do f c r.world (log ++ [.ret (.updateCNAMERecord currentFQDN) none])

/-- Lines 181-184: the call of `cnameRecord`, then the rest. -/
def mainLookup {σ : Type} (urlOk : String → Bool)
    (Do : σ → Request → Reply × σ)
    (f : Flags) (c : dynHTTPClient) (w : σ) (log : List Event) : Exec σ :=
  let r := cnameRecord urlOk Do f c w
  let log := log ++ .call .cnameRecord :: r.events
  match r.result with
  | .panics q => ⟨r.world, c, log, some q⟩
  | .returns (_, some err) =>
    ⟨r.world, c, log ++ [.ret .cnameRecord (some err)], some (.error err)⟩
  | .returns (currentFQDN, none) =>
    mainChange urlOk Do f c currentFQDN r.world (log ++ [.ret .cnameRecord none])

/-- The function `main` after `flag.Parse()`: `urlOk` tells which URLs
`http.NewRequest` accepts, `Do` is the transport and the decoder, `w` the state of the
environment at the start. -/
def main {σ : Type} (urlOk : String → Bool)
    (Do : σ → Request → Reply × σ) (f : Flags)
    (w : σ) : Exec σ :=
  let dynClient : dynHTTPClient := { token := "" }
  let r := session Do f dynClient w
  let log := .call .session :: r.events
  match r.result with
  | .panics q => ⟨r.world, dynClient, log, some q⟩
  | .returns (_, some err) =>
    ⟨r.world, dynClient, log ++ [.ret .session (some err)], some (.error err)⟩
  | .returns (token, none) =>
    mainLookup urlOk Do f { dynClient with token := token } r.world
      (log ++ [.ret .session none, .setToken token])

/-! ## Reading a log -/

/-- The methods `main` called, in order. -/
def calls : List Event → List Method
  | [] => []
  | .call m :: rest => m :: calls rest
  | _ :: rest => calls rest

/-- The requests issued, in order. -/
def requests : List Event → List Request
  | [] => []
  | .send r :: rest => r :: requests rest
  | _ :: rest => requests rest

/-- The texts printed, in order. -/
def stdout : List Event → List Text
  | [] => []
  | .print t :: rest => t :: stdout rest
  | _ :: rest => stdout rest

/-- The values assigned to `dynClient.token`, in order. -/
def tokenWrites : List Event → List String
  | [] => []
  | .setToken t :: rest => t :: tokenWrites rest
  | _ :: rest => tokenWrites rest

/-- The values of the header `key` of a request (`req.Header[key]`). -/
def headerValues (req : Request) (key : String) : List String :=
  (req.header.filter (fun kv => kv.1 = key)).map (fun kv => kv.2)

/-- A provider that answers the calls from a fixed script, one reply per request,
and fails the transport once the script is used up. -/
def scripted : List Reply → Request → Reply × List Reply
  | [], _ => (.doErr "EOF", [])
  | r :: rest, _ => (r, rest)

/-! ## Vocabulary of the properties -/

/-- The `ERR_CD` of a message entry that is an object with a string `ERR_CD`,
`none` for any other entry. -/
def errCd : JVal → Option String
  | .obj msgs =>
    match index msgs "ERR_CD" with
    | .str cd => some cd
    | _ => none
  | _ => none

/-- An entry with a string `ERR_CD` other than `NOT_FOUND`. -/
def otherCode (x : JVal) : Prop := ∃ cd, errCd x = some cd ∧ cd ≠ "NOT_FOUND"

/-- The two methods that change the record. -/
def isChange : Method → Bool
  | .createCNAMERecord => true
  | .updateCNAMERecord _ => true
  | _ => false

/-- A method returning a non-nil error to `main`. -/
def isErrRet (y : Event) : Prop := ∃ m e, y = .ret m (some e)

/-- An assignment to `dynClient.token`. -/
def isTokenWrite (y : Event) : Prop := ∃ t, y = .setToken t

/-- The remote record as the idempotence property models it: the provider keeps the
payload of the last request it accepted; it answers "success" to a request it
accepts and "failure" to one it does not. -/
def remoteRecord (accepts : Request → Bool) (st : Option JVal) (req : Request) :
    Reply × Option JVal :=
  if accepts req then (.decoded [("status", .str "success")], req.body)
  else (.decoded [("status", .str "failure")], st)

/-- A hexadecimal digit (`ishex` of `net/url`). -/
def ishex (ch : Char) : Bool :=
  ('0' ≤ ch && ch ≤ '9') || ('a' ≤ ch && ch ≤ 'f') || ('A' ≤ ch && ch ≤ 'F')

/-- The percent-escape check of `net/url` on the characters of a URL: every `%` is
followed by two hexadecimal digits. -/
def escapesOk : List Char → Bool
  | [] => true
  | '%' :: a :: b :: rest => ishex a && ishex b && escapesOk rest
  | '%' :: _ => false
  | _ :: rest => escapesOk rest

/-- The URL check of the concrete runs below: `http.NewRequest` rejects a URL with a
percent sign that does not start an escape, such as `%zz`, and accepts the URLs of the
scenarios, which pass this check. -/
def urlEscapesOk (url : String) : Bool := escapesOk url.data

/-- The flags of the end-to-end scenarios: zone `ft.com`, fqdn `www.ft.com`, host
`lb.aws.com`. -/
def scenarioFlags : Flags :=
  { customerName := "financialtimes", userName := "georgeangel", password := "secret"
    host := "lb.aws.com", fqdn := "www.ft.com", zone := "ft.com" }

/-- A successful authentication response carrying the token `t0k3n`. -/
def authOk : Reply :=
  .decoded [("status", .str "success"), ("data", .obj [("token", .str "t0k3n")])]

/-- A bare `{status: "success"}` response. -/
def statusOk : Reply := .decoded [("status", .str "success")]

/-- A `{status: "failure", msgs: ["denied"]}` response. -/
def statusFailure : Reply :=
  .decoded [("status", .str "failure"), ("msgs", .arr [.str "denied"])]

/-- The lookup response of a record that does not exist. -/
def lookupNotFound : Reply :=
  .decoded [("status", .str "failure"), ("msgs", .arr [.obj [("ERR_CD", .str "NOT_FOUND")]])]

/-- The lookup response with the single record path `p`. -/
def lookupFound (p : String) : Reply :=
  .decoded [("status", .str "success"), ("data", .arr [.str p])]

/-! ## Lemmas on the decoded values -/

theorem neStr_eq_false {v : JVal} {s : String} : neStr v s = false ↔ v = .str s := by
  cases v <;> simp [neStr]

theorem neStr_eq_true {v : JVal} {s : String} : neStr v s = true ↔ v ≠ .str s := by
  cases v <;> simp [neStr]

theorem scanMsgs_other (xs : List JVal) (h : ∀ y ∈ xs, otherCode y) :
    scanMsgs xs = .returns none := by
  induction xs with
  | nil => rfl
  | cons x rest ih =>
    obtain ⟨cd, hcd, hne⟩ := h x (by simp)
    have hrest := ih (fun y hy => h y (by simp [hy]))
    cases x <;> simp [errCd] at hcd
    rename_i kvs
    cases hi : index kvs "ERR_CD" <;> simp [hi] at hcd
    subst hcd
    simp [scanMsgs, hi, hne, hrest]

theorem scanMsgs_append (pre rest : List JVal) (h : ∀ y ∈ pre, otherCode y) :
    scanMsgs (pre ++ rest) = scanMsgs rest := by
  induction pre with
  | nil => rfl
  | cons x pre ih =>
    obtain ⟨cd, hcd, hne⟩ := h x (by simp)
    have hrest := ih (fun y hy => h y (by simp [hy]))
    cases x <;> simp [errCd] at hcd
    rename_i kvs
    cases hi : index kvs "ERR_CD" <;> simp [hi] at hcd
    subst hcd
    simp [scanMsgs, hi, hne, hrest]

theorem scanMsgs_found (x : JVal) (post : List JVal) (h : errCd x = some "NOT_FOUND") :
    scanMsgs (x :: post) = .returns (some "NOT_FOUND") := by
  cases x <;> simp [errCd] at h
  rename_i kvs
  cases hi : index kvs "ERR_CD" <;> simp [hi] at h
  subst h
  simp [scanMsgs, hi]

theorem scanMsgs_bad (x : JVal) (post : List JVal) (h : errCd x = none) :
    scanMsgs (x :: post) = .panics .typeAssertion := by
  cases x <;> simp [errCd] at h <;> try rfl
  rename_i kvs
  cases hi : index kvs "ERR_CD" <;> simp [hi] at h <;> simp [scanMsgs, hi]

/-! ## Lemmas on logs -/

@[simp]
theorem calls_nil : calls [] = [] := rfl
@[simp]
theorem calls_cons_call (m : Method) (l : List Event) :
    calls (.call m :: l) = m :: calls l := rfl
@[simp]
theorem calls_cons_send (r : Request) (l : List Event) :
    calls (.send r :: l) = calls l := rfl
@[simp]
theorem calls_cons_print (t : Text) (l : List Event) :
    calls (.print t :: l) = calls l := rfl
@[simp]
theorem calls_cons_ret (m : Method) (e : Option GoError) (l : List Event) :
    calls (.ret m e :: l) = calls l := rfl
@[simp]
theorem calls_cons_setToken (t : String) (l : List Event) :
    calls (.setToken t :: l) = calls l := rfl

@[simp]
theorem calls_append (a b : List Event) : calls (a ++ b) = calls a ++ calls b := by
  induction a with
  | nil => rfl
  | cons x a ih => cases x <;> simp [ih]

@[simp]
theorem calls_map_print (l : List Text) : calls (l.map .print) = [] := by
  induction l with
  | nil => rfl
  | cons x l ih => simp [ih]

@[simp]
theorem requests_nil : requests [] = [] := rfl
@[simp]
theorem requests_cons_call (m : Method) (l : List Event) :
    requests (.call m :: l) = requests l := rfl
@[simp]
theorem requests_cons_send (r : Request) (l : List Event) :
    requests (.send r :: l) = r :: requests l := rfl
@[simp]
theorem requests_cons_print (t : Text) (l : List Event) :
    requests (.print t :: l) = requests l := rfl
@[simp]
theorem requests_cons_ret (m : Method) (e : Option GoError) (l : List Event) :
    requests (.ret m e :: l) = requests l := rfl
@[simp]
theorem requests_cons_setToken (t : String) (l : List Event) :
    requests (.setToken t :: l) = requests l := rfl

@[simp]
theorem requests_append (a b : List Event) :
    requests (a ++ b) = requests a ++ requests b := by
  induction a with
  | nil => rfl
  | cons x a ih => cases x <;> simp [ih]

@[simp]
theorem requests_map_print (l : List Text) : requests (l.map .print) = [] := by
  induction l with
  | nil => rfl
  | cons x l ih => simp [ih]

@[simp]
theorem stdout_nil : stdout [] = [] := rfl
@[simp]
theorem stdout_cons_call (m : Method) (l : List Event) :
    stdout (.call m :: l) = stdout l := rfl
@[simp]
theorem stdout_cons_send (r : Request) (l : List Event) :
    stdout (.send r :: l) = stdout l := rfl
@[simp]
theorem stdout_cons_print (t : Text) (l : List Event) :
    stdout (.print t :: l) = t :: stdout l := rfl
@[simp]
theorem stdout_cons_ret (m : Method) (e : Option GoError) (l : List Event) :
    stdout (.ret m e :: l) = stdout l := rfl
@[simp]
theorem stdout_cons_setToken (t : String) (l : List Event) :
    stdout (.setToken t :: l) = stdout l := rfl

@[simp]
theorem stdout_append (a b : List Event) : stdout (a ++ b) = stdout a ++ stdout b := by
  induction a with
  | nil => rfl
  | cons x a ih => cases x <;> simp [ih]

@[simp]
theorem stdout_map_print (l : List Text) : stdout (l.map .print) = l := by
  induction l with
  | nil => rfl
  | cons x l ih => simp [ih]

@[simp]
theorem tokenWrites_nil : tokenWrites [] = [] := rfl
@[simp]
theorem tokenWrites_cons_call (m : Method) (l : List Event) :
    tokenWrites (.call m :: l) = tokenWrites l := rfl
@[simp]
theorem tokenWrites_cons_send (r : Request) (l : List Event) :
    tokenWrites (.send r :: l) = tokenWrites l := rfl
@[simp]
theorem tokenWrites_cons_print (t : Text) (l : List Event) :
    tokenWrites (.print t :: l) = tokenWrites l := rfl
@[simp]
theorem tokenWrites_cons_ret (m : Method) (e : Option GoError) (l : List Event) :
    tokenWrites (.ret m e :: l) = tokenWrites l := rfl
@[simp]
theorem tokenWrites_cons_setToken (t : String) (l : List Event) :
    tokenWrites (.setToken t :: l) = t :: tokenWrites l := rfl

@[simp]
theorem tokenWrites_append (a b : List Event) :
    tokenWrites (a ++ b) = tokenWrites a ++ tokenWrites b := by
  induction a with
  | nil => rfl
  | cons x a ih => cases x <;> simp [ih]

@[simp]
theorem tokenWrites_map_print (l : List Text) : tokenWrites (l.map .print) = [] := by
  induction l with
  | nil => rfl
  | cons x l ih => simp [ih]

theorem tokenWrites_eq_nil (l : List Event) (h : ∀ t, Event.setToken t ∉ l) :
    tokenWrites l = [] := by
  induction l with
  | nil => rfl
  | cons x l ih =>
    have hl := ih (fun t ht => h t (List.mem_cons_of_mem _ ht))
    cases x with
    | setToken t => exact absurd (List.mem_cons_self _ _) (h t)
    | call m => simpa using hl
    | send r => simpa using hl
    | print t => simpa using hl
    | ret m e => simpa using hl

/-- A list splits in one way only around an element with a property that no other
element has. -/
theorem split_unique {α : Type} (P : α → Prop) {x z : α} {A B pre post : List α}
    (hA : ∀ y ∈ A, ¬ P y) (hB : ∀ y ∈ B, ¬ P y) (hz : P z)
    (h : A ++ x :: B = pre ++ z :: post) : pre = A ∧ z = x ∧ post = B := by
  rcases List.append_eq_append_iff.mp h with ⟨a1, h1, h2⟩ | ⟨c1, h1, h2⟩
  · cases a1 with
    | nil =>
      simp at h1 h2
      exact ⟨h1, h2.1.symm, h2.2.symm⟩
    | cons y a2 =>
      simp at h2
      exact absurd hz (hB z (by rw [h2.2]; simp))
  · cases c1 with
    | nil =>
      simp at h1 h2
      exact ⟨h1.symm, h2.1, h2.2⟩
    | cons y c2 =>
      simp at h2
      exact absurd hz (hA z (by rw [h1, ← h2.1]; simp))

/-! ## The printed lines are told apart by their first character -/

theorem currentFQDN_ne_confirmation (s : String) (f : Flags) :
    confirmation f ≠ [Piece.lit ("currentFQDN: " ++ s ++ "\n")] := by
  intro h
  simp only [confirmation, List.cons.injEq, Piece.lit.injEq, and_true] at h
  have := congrArg (fun s => s.data.head?) h
  simp [String.data_append] at this

theorem record_ne_confirmation (s : String) (f : Flags) :
    confirmation f ≠ [Piece.lit ("Record: " ++ s ++ "\n")] := by
  intro h
  simp only [confirmation, List.cons.injEq, Piece.lit.injEq, and_true] at h
  have := congrArg (fun s => s.data.head?) h
  simp [String.data_append] at this

theorem published_ne_confirmation (f : Flags) :
    confirmation f ≠ [Piece.lit "Succesfully published\n"] := by
  intro h
  simp only [confirmation, List.cons.injEq, Piece.lit.injEq, and_true] at h
  have := congrArg (fun s => s.data.head?) h
  simp [String.data_append] at this

theorem body_ne_confirmation (x : JVal) (f : Flags) :
    confirmation f ≠ [Piece.lit "Body: ", Piece.v x, Piece.lit "\n"] := by
  simp [confirmation]

/-! ## The events of a method call -/

@[simp]
theorem calls_session {σ : Type} (Do : σ → Request → Reply × σ) (f : Flags)
    (c : dynHTTPClient) (w : σ) : calls (session Do f c w).events = [] := by
  simp [session]

@[simp]
theorem requests_session {σ : Type} (Do : σ → Request → Reply × σ) (f : Flags)
    (c : dynHTTPClient) (w : σ) : requests (session Do f c w).events = [sessionRequest f] := by
  simp [session]

@[simp]
theorem tokenWrites_session {σ : Type} (Do : σ → Request → Reply × σ) (f : Flags)
    (c : dynHTTPClient) (w : σ) : tokenWrites (session Do f c w).events = [] := by
  simp [session]

@[simp]
theorem session_no_call {σ : Type} (Do : σ → Request → Reply × σ) (f : Flags)
    (c : dynHTTPClient) (w : σ) (m : Method) : Event.call m ∉ (session Do f c w).events := by
  simp [session]

@[simp]
theorem session_no_ret {σ : Type} (Do : σ → Request → Reply × σ) (f : Flags)
    (c : dynHTTPClient) (w : σ) (m : Method) (e : Option GoError) :
    Event.ret m e ∉ (session Do f c w).events := by
  simp [session]

@[simp]
theorem session_no_setToken {σ : Type} (Do : σ → Request → Reply × σ) (f : Flags)
    (c : dynHTTPClient) (w : σ) (t : String) :
    Event.setToken t ∉ (session Do f c w).events := by
  simp [session]

@[simp]
theorem calls_cnameRecord {σ : Type} (urlOk : String → Bool)
    (Do : σ → Request → Reply × σ)
    (f : Flags) (c : dynHTTPClient) (w : σ) :
    calls (cnameRecord urlOk Do f c w).events = [] := by
  simp only [cnameRecord]
  split <;> simp

theorem requests_cnameRecord {σ : Type} (urlOk : String → Bool)
    (Do : σ → Request → Reply × σ)
    (f : Flags) (c : dynHTTPClient) (w : σ) :
    requests (cnameRecord urlOk Do f c w).events
      = if urlOk (cnameRecordRequest f c).url then [cnameRecordRequest f c] else [] := by
  simp only [cnameRecord]
  split <;> simp

@[simp]
theorem tokenWrites_cnameRecord {σ : Type} (urlOk : String → Bool)
    (Do : σ → Request → Reply × σ)
    (f : Flags) (c : dynHTTPClient) (w : σ) :
    tokenWrites (cnameRecord urlOk Do f c w).events = [] := by
  simp only [cnameRecord]
  split <;> simp

@[simp]
theorem cnameRecord_no_call {σ : Type} (urlOk : String → Bool)
    (Do : σ → Request → Reply × σ)
    (f : Flags) (c : dynHTTPClient) (w : σ) (m : Method) :
    Event.call m ∉ (cnameRecord urlOk Do f c w).events := by
  simp only [cnameRecord]
  split <;> simp

@[simp]
theorem cnameRecord_no_ret {σ : Type} (urlOk : String → Bool)
    (Do : σ → Request → Reply × σ)
    (f : Flags) (c : dynHTTPClient) (w : σ) (m : Method)
    (e : Option GoError) : Event.ret m e ∉ (cnameRecord urlOk Do f c w).events := by
  simp only [cnameRecord]
  split <;> simp

@[simp]
theorem cnameRecord_no_setToken {σ : Type} (urlOk : String → Bool)
    (Do : σ → Request → Reply × σ)
    (f : Flags) (c : dynHTTPClient) (w : σ) (t : String) :
    Event.setToken t ∉ (cnameRecord urlOk Do f c w).events := by
  simp only [cnameRecord]
  split <;> simp

theorem cnameRecord_returns {σ : Type} (urlOk : String → Bool)
    (Do : σ → Request → Reply × σ)
    (f : Flags) (c : dynHTTPClient) (w : σ)
    (a : String × Option GoError)
    (h : (cnameRecord urlOk Do f c w).result = .returns a) :
    urlOk (cnameRecordRequest f c).url = true := by
  simp only [cnameRecord] at h
  split at h
  · assumption
  · simp at h

theorem cnameRecord_header {σ : Type} (urlOk : String → Bool)
    (Do : σ → Request → Reply × σ)
    (f : Flags) (c : dynHTTPClient) (w : σ) :
    ∀ r ∈ requests (cnameRecord urlOk Do f c w).events, headerValues r "Auth-Token" = [c.token] := by
  rw [requests_cnameRecord]
  split <;> simp [headerValues, cnameRecordRequest]

@[simp]
theorem calls_createCNAMERecord {σ : Type} (urlOk : String → Bool)
    (Do : σ → Request → Reply × σ)
    (f : Flags) (c : dynHTTPClient) (w : σ) :
    calls (createCNAMERecord urlOk Do f c w).events = [] := by
  simp only [createCNAMERecord]
  split <;> simp

theorem requests_createCNAMERecord {σ : Type} (urlOk : String → Bool)
    (Do : σ → Request → Reply × σ)
    (f : Flags) (c : dynHTTPClient) (w : σ) :
    requests (createCNAMERecord urlOk Do f c w).events
      = if urlOk (createCNAMERecordRequest f c).url then [createCNAMERecordRequest f c] else [] := by
  simp only [createCNAMERecord]
  split <;> simp

@[simp]
theorem tokenWrites_createCNAMERecord {σ : Type} (urlOk : String → Bool)
    (Do : σ → Request → Reply × σ)
    (f : Flags) (c : dynHTTPClient) (w : σ) :
    tokenWrites (createCNAMERecord urlOk Do f c w).events = [] := by
  simp only [createCNAMERecord]
  split <;> simp

@[simp]
theorem createCNAMERecord_no_call {σ : Type} (urlOk : String → Bool)
    (Do : σ → Request → Reply × σ)
    (f : Flags) (c : dynHTTPClient) (w : σ) (m : Method) :
    Event.call m ∉ (createCNAMERecord urlOk Do f c w).events := by
  simp only [createCNAMERecord]
  split <;> simp

@[simp]
theorem createCNAMERecord_no_ret {σ : Type} (urlOk : String → Bool)
    (Do : σ → Request → Reply × σ)
    (f : Flags) (c : dynHTTPClient) (w : σ) (m : Method)
    (e : Option GoError) : Event.ret m e ∉ (createCNAMERecord urlOk Do f c w).events := by
  simp only [createCNAMERecord]
  split <;> simp

@[simp]
theorem createCNAMERecord_no_setToken {σ : Type} (urlOk : String → Bool)
    (Do : σ → Request → Reply × σ)
    (f : Flags) (c : dynHTTPClient) (w : σ) (t : String) :
    Event.setToken t ∉ (createCNAMERecord urlOk Do f c w).events := by
  simp only [createCNAMERecord]
  split <;> simp

theorem createCNAMERecord_returns {σ : Type} (urlOk : String → Bool)
    (Do : σ → Request → Reply × σ)
    (f : Flags) (c : dynHTTPClient) (w : σ)
    (a : Option GoError)
    (h : (createCNAMERecord urlOk Do f c w).result = .returns a) :
    urlOk (createCNAMERecordRequest f c).url = true := by
  simp only [createCNAMERecord] at h
  split at h
  · assumption
  · simp at h

theorem createCNAMERecord_header {σ : Type} (urlOk : String → Bool)
    (Do : σ → Request → Reply × σ)
    (f : Flags) (c : dynHTTPClient) (w : σ) :
    ∀ r ∈ requests (createCNAMERecord urlOk Do f c w).events, headerValues r "Auth-Token" = [c.token] := by
  rw [requests_createCNAMERecord]
  split <;> simp [headerValues, createCNAMERecordRequest]

@[simp]
theorem calls_updateCNAMERecord {σ : Type} (urlOk : String → Bool)
    (Do : σ → Request → Reply × σ)
    (f : Flags) (c : dynHTTPClient) (p : String) (w : σ) :
    calls (updateCNAMERecord urlOk Do f c p w).events = [] := by
  simp only [updateCNAMERecord]
  split <;> simp

theorem requests_updateCNAMERecord {σ : Type} (urlOk : String → Bool)
    (Do : σ → Request → Reply × σ)
    (f : Flags) (c : dynHTTPClient) (p : String) (w : σ) :
    requests (updateCNAMERecord urlOk Do f c p w).events
      = if urlOk (updateCNAMERecordRequest f c p).url then [updateCNAMERecordRequest f c p] else [] := by
  simp only [updateCNAMERecord]
  split <;> simp

@[simp]
theorem tokenWrites_updateCNAMERecord {σ : Type} (urlOk : String → Bool)
    (Do : σ → Request → Reply × σ)
    (f : Flags) (c : dynHTTPClient) (p : String) (w : σ) :
    tokenWrites (updateCNAMERecord urlOk Do f c p w).events = [] := by
  simp only [updateCNAMERecord]
  split <;> simp

@[simp]
theorem updateCNAMERecord_no_call {σ : Type} (urlOk : String → Bool)
    (Do : σ → Request → Reply × σ)
    (f : Flags) (c : dynHTTPClient) (p : String) (w : σ) (m : Method) :
    Event.call m ∉ (updateCNAMERecord urlOk Do f c p w).events := by
  simp only [updateCNAMERecord]
  split <;> simp

@[simp]
theorem updateCNAMERecord_no_ret {σ : Type} (urlOk : String → Bool)
    (Do : σ → Request → Reply × σ)
    (f : Flags) (c : dynHTTPClient) (p : String) (w : σ) (m : Method)
    (e : Option GoError) : Event.ret m e ∉ (updateCNAMERecord urlOk Do f c p w).events := by
  simp only [updateCNAMERecord]
  split <;> simp

@[simp]
theorem updateCNAMERecord_no_setToken {σ : Type} (urlOk : String → Bool)
    (Do : σ → Request → Reply × σ)
    (f : Flags) (c : dynHTTPClient) (p : String) (w : σ) (t : String) :
    Event.setToken t ∉ (updateCNAMERecord urlOk Do f c p w).events := by
  simp only [updateCNAMERecord]
  split <;> simp

theorem updateCNAMERecord_returns {σ : Type} (urlOk : String → Bool)
    (Do : σ → Request → Reply × σ)
    (f : Flags) (c : dynHTTPClient) (p : String) (w : σ)
    (a : Option GoError)
    (h : (updateCNAMERecord urlOk Do f c p w).result = .returns a) :
    urlOk (updateCNAMERecordRequest f c p).url = true := by
  simp only [updateCNAMERecord] at h
  split at h
  · assumption
  · simp at h

theorem updateCNAMERecord_header {σ : Type} (urlOk : String → Bool)
    (Do : σ → Request → Reply × σ)
    (f : Flags) (c : dynHTTPClient) (p : String) (w : σ) :
    ∀ r ∈ requests (updateCNAMERecord urlOk Do f c p w).events, headerValues r "Auth-Token" = [c.token] := by
  rw [requests_updateCNAMERecord]
  split <;> simp [headerValues, updateCNAMERecordRequest]

@[simp]
theorem calls_publish {σ : Type} (urlOk : String → Bool)
    (Do : σ → Request → Reply × σ)
    (f : Flags) (c : dynHTTPClient) (w : σ) :
    calls (publish urlOk Do f c w).events = [] := by
  simp only [publish]
  split <;> simp

theorem requests_publish {σ : Type} (urlOk : String → Bool)
    (Do : σ → Request → Reply × σ)
    (f : Flags) (c : dynHTTPClient) (w : σ) :
    requests (publish urlOk Do f c w).events
      = if urlOk (publishRequest f c).url then [publishRequest f c] else [] := by
  simp only [publish]
  split <;> simp

@[simp]
theorem tokenWrites_publish {σ : Type} (urlOk : String → Bool)
    (Do : σ → Request → Reply × σ)
    (f : Flags) (c : dynHTTPClient) (w : σ) :
    tokenWrites (publish urlOk Do f c w).events = [] := by
  simp only [publish]
  split <;> simp

@[simp]
theorem publish_no_call {σ : Type} (urlOk : String → Bool)
    (Do : σ → Request → Reply × σ)
    (f : Flags) (c : dynHTTPClient) (w : σ) (m : Method) :
    Event.call m ∉ (publish urlOk Do f c w).events := by
  simp only [publish]
  split <;> simp

@[simp]
theorem publish_no_ret {σ : Type} (urlOk : String → Bool)
    (Do : σ → Request → Reply × σ)
    (f : Flags) (c : dynHTTPClient) (w : σ) (m : Method)
    (e : Option GoError) : Event.ret m e ∉ (publish urlOk Do f c w).events := by
  simp only [publish]
  split <;> simp

@[simp]
theorem publish_no_setToken {σ : Type} (urlOk : String → Bool)
    (Do : σ → Request → Reply × σ)
    (f : Flags) (c : dynHTTPClient) (w : σ) (t : String) :
    Event.setToken t ∉ (publish urlOk Do f c w).events := by
  simp only [publish]
  split <;> simp

theorem publish_returns {σ : Type} (urlOk : String → Bool)
    (Do : σ → Request → Reply × σ)
    (f : Flags) (c : dynHTTPClient) (w : σ)
    (a : Option GoError)
    (h : (publish urlOk Do f c w).result = .returns a) :
    urlOk (publishRequest f c).url = true := by
  simp only [publish] at h
  split at h
  · assumption
  · simp at h

theorem publish_header {σ : Type} (urlOk : String → Bool)
    (Do : σ → Request → Reply × σ)
    (f : Flags) (c : dynHTTPClient) (w : σ) :
    ∀ r ∈ requests (publish urlOk Do f c w).events, headerValues r "Auth-Token" = [c.token] := by
  rw [requests_publish]
  split <;> simp [headerValues, publishRequest]

/-! ## The shape of a run -/

theorem main_change_le_one {σ : Type} (urlOk : String → Bool)
    (Do : σ → Request → Reply × σ) (f : Flags) (w : σ) :
    ((calls (main urlOk Do f w).events).filter isChange).length ≤ 1 := by
  simp only [main, mainLookup, mainChange, mainPublish]
  split
  · simp [isChange]
  · simp [isChange]
  · split
    · simp [isChange]
    · simp [isChange]
    · split
      · split <;> [skip; skip; split] <;>
          simp [isChange]
      · split <;> [skip; skip; split] <;>
          simp [isChange]

theorem main_publish_cases {σ : Type} (urlOk : String → Bool)
    (Do : σ → Request → Reply × σ) (f : Flags) (w : σ) :
    Event.call .publish ∉ (main urlOk Do f w).events ∨
    ∃ A B m, (main urlOk Do f w).events = A ++ Event.call .publish :: B ∧
      Event.call .publish ∉ A ∧ Event.call .publish ∉ B ∧
      isChange m = true ∧ (calls A).filter isChange = [m] ∧ Event.ret m none ∈ A := by
  simp only [main, mainLookup, mainChange, mainPublish]
  split
  · left; simp
  · left; simp
  · split
    · left; simp
    · left; simp
    · rename_i record _
      split
      · split
        · left; simp
        · left; simp
        · right
          split
          · refine ⟨_, _, .createCNAMERecord, rfl, ?_⟩
            simp [isChange]
          · refine ⟨_, _, .createCNAMERecord, List.append_assoc _ _ _, ?_⟩
            simp [isChange]
          · refine ⟨_, _, .createCNAMERecord, List.append_assoc _ _ _, ?_⟩
            simp [isChange]
      · split
        · left; simp
        · left; simp
        · right
          split
          · refine ⟨_, _, .updateCNAMERecord record, rfl, ?_⟩
            simp [isChange]
          · refine ⟨_, _, .updateCNAMERecord record, List.append_assoc _ _ _, ?_⟩
            simp [isChange]
          · refine ⟨_, _, .updateCNAMERecord record, List.append_assoc _ _ _, ?_⟩
            simp [isChange]

theorem main_error_cases {σ : Type} (urlOk : String → Bool)
    (Do : σ → Request → Reply × σ) (f : Flags) (w : σ) :
    (∀ m e, Event.ret m (some e) ∉ (main urlOk Do f w).events) ∨
    ∃ A m e, (main urlOk Do f w).events = A ++ [Event.ret m (some e)] ∧
      (∀ m e, Event.ret m (some e) ∉ A) ∧ (main urlOk Do f w).outcome = some (.error e) := by
  simp only [main, mainLookup, mainChange, mainPublish]
  split
  · left; intro m e; simp
  · right; exact ⟨_, _, _, rfl, by intro m e; simp, rfl⟩
  · split
    · left; intro m e; simp
    · right; exact ⟨_, _, _, rfl, by intro m e; simp, rfl⟩
    · split
      · split
        · left; intro m e; simp
        · right
          exact ⟨_, _, _, rfl, by intro m e; simp, rfl⟩
        · split
          · left; intro m e; simp
          · right
            exact ⟨_, _, _, rfl,
              by intro m e; simp, rfl⟩
          · left; intro m e; simp
      · split
        · left; intro m e; simp
        · right
          exact ⟨_, _, _, rfl, by intro m e; simp, rfl⟩
        · split
          · left; intro m e; simp
          · right
            exact ⟨_, _, _, rfl,
              by intro m e; simp, rfl⟩
          · left; intro m e; simp

theorem mainLookup_events {σ : Type} (urlOk : String → Bool)
    (Do : σ → Request → Reply × σ) (f : Flags)
    (c : dynHTTPClient) (w : σ) (log : List Event) :
    (mainLookup urlOk Do f c w log).events = log ++ (mainLookup urlOk Do f c w []).events := by
  simp only [mainLookup, mainChange, mainPublish]
  split
  · simp
  · simp
  · split
    · split <;> [skip; skip; split] <;> simp
    · split <;> [skip; skip; split] <;> simp

theorem mainLookup_no_tokenWrite {σ : Type} (urlOk : String → Bool)
    (Do : σ → Request → Reply × σ) (f : Flags)
    (c : dynHTTPClient) (w : σ) (t : String) :
    Event.setToken t ∉ (mainLookup urlOk Do f c w []).events := by
  simp only [mainLookup, mainChange, mainPublish]
  split
  · simp
  · simp
  · split
    · split <;> [skip; skip; split] <;> simp
    · split <;> [skip; skip; split] <;> simp

theorem main_tokenWrite_cases {σ : Type} (urlOk : String → Bool)
    (Do : σ → Request → Reply × σ) (f : Flags) (w : σ) :
    (∀ t, Event.setToken t ∉ (main urlOk Do f w).events) ∨
    ∃ A B token, (main urlOk Do f w).events = A ++ Event.setToken token :: B ∧
      (∀ t, Event.setToken t ∉ A) ∧ (∀ t, Event.setToken t ∉ B) ∧
      requests A = [sessionRequest f] ∧ calls A = [.session] ∧ Event.ret .session none ∈ A := by
  simp only [main]
  split
  · left; intro t; simp
  · left; intro t; simp
  · rename_i token _
    right
    refine ⟨.call .session :: (session Do f ⟨""⟩ w).events ++ [.ret .session none],
      (mainLookup urlOk Do f ⟨token⟩ (session Do f ⟨""⟩ w).world []).events, token, ?_, ?_, ?_, ?_⟩
    · rw [mainLookup_events]; simp
    · intro t; simp
    · intro t; exact mainLookup_no_tokenWrite urlOk Do f _ _ t
    · simp

/-- What the other method bodies print is never the confirmation of `publish`. -/
theorem sessionReply_printed (f : Flags) (r : Reply) :
    confirmation f ∉ (sessionReply r).printed := by
  cases r <;> simp only [sessionReply]
  · simp
  · simp
  · split
    · simp
    · split <;> [split; skip] <;> simp [confirmation]

theorem cnameRecordReply_printed (t : Text) (r : Reply) :
    t ∉ (cnameRecordReply r).printed := by
  cases r <;> simp only [cnameRecordReply]
  · simp
  · simp
  · split
    · split <;> [split; skip] <;> simp
    · split <;> [(split <;> [split; skip]); skip] <;> simp

theorem createCNAMERecordReply_printed (t : Text) (r : Reply) :
    t ∉ (createCNAMERecordReply r).printed := by
  cases r <;> simp only [createCNAMERecordReply]
  · simp
  · simp
  · split <;> simp

theorem updateCNAMERecordReply_printed (f : Flags) (r : Reply) :
    confirmation f ∉ (updateCNAMERecordReply r).printed := by
  cases r <;> simp only [updateCNAMERecordReply]
  · simp
  · simp
  · split <;> simp [confirmation]

theorem publishReply_success (f : Flags) (r : Reply) :
    (publishReply f r).result = .returns none ↔
      ∃ respMap, r = .decoded respMap ∧ index respMap "status" = .str "success" := by
  cases r <;> simp only [publishReply]
  · simp
  · simp
  · split
    · rename_i h
      simp [neStr_eq_true.mp h]
    · rename_i h
      simp [neStr_eq_false.mp (by simpa using h)]

theorem publishReply_confirmation (f : Flags) (r : Reply) :
    confirmation f ∈ (publishReply f r).printed ↔
      ∃ respMap, r = .decoded respMap ∧ index respMap "status" = .str "success" := by
  cases r <;> simp only [publishReply]
  · simp
  · simp
  · split
    · rename_i h
      simp [neStr_eq_true.mp h]
    · rename_i h
      simp [neStr_eq_false.mp (by simpa using h)]

theorem publishReply_printed (f : Flags) (r : Reply) :
    ((publishReply f r).result = .returns none → (publishReply f r).printed = [confirmation f]) ∧
    ((publishReply f r).result ≠ .returns none → (publishReply f r).printed = []) := by
  cases r <;> simp only [publishReply]
  · simp
  · simp
  · split <;> simp

theorem publish_printed {σ : Type} (urlOk : String → Bool)
    (Do : σ → Request → Reply × σ)
    (f : Flags) (c : dynHTTPClient) (w : σ) :
    ((publish urlOk Do f c w).result = .returns none →
      stdout (publish urlOk Do f c w).events = [confirmation f]) ∧
    ((publish urlOk Do f c w).result ≠ .returns none →
      Event.print (confirmation f) ∉ (publish urlOk Do f c w).events) := by
  refine ⟨fun h => ?_, fun h => ?_⟩
  · simp only [publish] at h ⊢
    split at h
    · rename_i hu
      simp [hu, (publishReply_printed f _).1 h]
    · simp at h
  · simp only [publish] at h ⊢
    split at h
    · rename_i hu
      simp [hu, (publishReply_printed f _).2 h]
    · rename_i hu
      simp [hu]

theorem mainPublish_success {σ : Type} (urlOk : String → Bool)
    (Do : σ → Request → Reply × σ)
    (f : Flags) (c : dynHTTPClient) (w : σ) (log : List Event)
    (h : (mainPublish urlOk Do f c w log).outcome = none) :
    [confirmation f, [.lit "Succesfully published\n"]]
      <:+ stdout (mainPublish urlOk Do f c w log).events := by
  simp only [mainPublish] at h ⊢
  split at h
  · simp at h
  · simp at h
  · rename_i hp
    simp only [hp]
    rw [stdout_append, stdout_append, stdout_cons_call, (publish_printed urlOk Do f c w).1 hp,
      List.append_assoc]
    exact List.suffix_append _ _

theorem session_no_confirmation {σ : Type} (Do : σ → Request → Reply × σ) (f : Flags)
    (c : dynHTTPClient) (w : σ) : Event.print (confirmation f) ∉ (session Do f c w).events := by
  simp [session, sessionReply_printed]

theorem cnameRecord_no_confirmation {σ : Type} (urlOk : String → Bool)
    (Do : σ → Request → Reply × σ) (f : Flags) (c : dynHTTPClient) (w : σ) :
    Event.print (confirmation f) ∉ (cnameRecord urlOk Do f c w).events := by
  simp only [cnameRecord]
  split <;> simp [cnameRecordReply_printed]

theorem createCNAMERecord_no_confirmation {σ : Type} (urlOk : String → Bool)
    (Do : σ → Request → Reply × σ) (f : Flags) (c : dynHTTPClient) (w : σ) :
    Event.print (confirmation f) ∉ (createCNAMERecord urlOk Do f c w).events := by
  simp only [createCNAMERecord]
  split <;> simp [createCNAMERecordReply_printed]

theorem updateCNAMERecord_no_confirmation {σ : Type} (urlOk : String → Bool)
    (Do : σ → Request → Reply × σ) (f : Flags) (c : dynHTTPClient) (record : String) (w : σ) :
    Event.print (confirmation f) ∉ (updateCNAMERecord urlOk Do f c record w).events := by
  simp only [updateCNAMERecord]
  split <;>
    simp [updateCNAMERecordReply_printed, body_ne_confirmation, record_ne_confirmation]

theorem mainPublish_confirmation {σ : Type} (urlOk : String → Bool)
    (Do : σ → Request → Reply × σ) (f : Flags) (c : dynHTTPClient) (w : σ) (log : List Event)
    (hlog : Event.print (confirmation f) ∉ log)
    (h : Event.print (confirmation f) ∈ (mainPublish urlOk Do f c w log).events) :
    Event.ret .publish none ∈ (mainPublish urlOk Do f c w log).events ∧
      (mainPublish urlOk Do f c w log).outcome = none := by
  simp only [mainPublish] at h ⊢
  split
  · rename_i hp
    have hno := (publish_printed urlOk Do f c w).2 (by rw [hp]; simp)
    simp [hp, hlog, hno] at h
  · rename_i hp
    have hno := (publish_printed urlOk Do f c w).2 (by rw [hp]; simp)
    simp [hp, hlog, hno] at h
  · simp

/-! ## Every request of the later phases carries the token of the client -/

theorem mainPublish_header {σ : Type} (urlOk : String → Bool)
    (Do : σ → Request → Reply × σ)
    (f : Flags) (c : dynHTTPClient) (w : σ) (log : List Event)
    (hlog : ∀ r ∈ requests log, headerValues r "Auth-Token" = [c.token]) :
    ∀ r ∈ requests (mainPublish urlOk Do f c w log).events,
      headerValues r "Auth-Token" = [c.token] := by
  simp only [mainPublish]
  split <;>
  · intro r hr
    simp at hr
    rcases hr with h | h
    · exact hlog r h
    · exact publish_header urlOk Do f c w r h

theorem mainChange_header {σ : Type} (urlOk : String → Bool)
    (Do : σ → Request → Reply × σ)
    (f : Flags) (c : dynHTTPClient) (p : String) (w : σ) (log : List Event)
    (hlog : ∀ r ∈ requests log, headerValues r "Auth-Token" = [c.token]) :
    ∀ r ∈ requests (mainChange urlOk Do f c p w log).events,
      headerValues r "Auth-Token" = [c.token] := by
  simp only [mainChange]
  split
  · split
    · intro r hr
      simp at hr
      rcases hr with h | h
      · exact hlog r h
      · exact createCNAMERecord_header urlOk Do f c w r h
    · intro r hr
      simp at hr
      rcases hr with h | h
      · exact hlog r h
      · exact createCNAMERecord_header urlOk Do f c w r h
    · refine mainPublish_header urlOk Do f c _ _ ?_
      intro r hr
      simp at hr
      rcases hr with h | h
      · exact hlog r h
      · exact createCNAMERecord_header urlOk Do f c w r h
  · split
    · intro r hr
      simp at hr
      rcases hr with h | h
      · exact hlog r h
      · exact updateCNAMERecord_header urlOk Do f c p w r h
    · intro r hr
      simp at hr
      rcases hr with h | h
      · exact hlog r h
      · exact updateCNAMERecord_header urlOk Do f c p w r h
    · refine mainPublish_header urlOk Do f c _ _ ?_
      intro r hr
      simp at hr
      rcases hr with h | h
      · exact hlog r h
      · exact updateCNAMERecord_header urlOk Do f c p w r h

theorem mainLookup_header {σ : Type} (urlOk : String → Bool)
    (Do : σ → Request → Reply × σ)
    (f : Flags) (c : dynHTTPClient) (w : σ) (log : List Event)
    (hlog : ∀ r ∈ requests log, headerValues r "Auth-Token" = [c.token]) :
    ∀ r ∈ requests (mainLookup urlOk Do f c w log).events,
      headerValues r "Auth-Token" = [c.token] := by
  simp only [mainLookup]
  split
  · intro r hr
    simp at hr
    rcases hr with h | h
    · exact hlog r h
    · exact cnameRecord_header urlOk Do f c w r h
  · intro r hr
    simp at hr
    rcases hr with h | h
    · exact hlog r h
    · exact cnameRecord_header urlOk Do f c w r h
  · refine mainChange_header urlOk Do f c _ _ _ ?_
    intro r hr
    simp at hr
    rcases hr with h | h
    · exact hlog r h
    · exact cnameRecord_header urlOk Do f c w r h

/-! ## The replies of the lookup and of the authentication -/

theorem cnameRecordReply_not_success (respMap : List (String × JVal))
    (hst : index respMap "status" ≠ .str "success") :
    (∀ pre x post, index respMap "msgs" = .arr (pre ++ x :: post) →
      (∀ y ∈ pre, otherCode y) → errCd x = some "NOT_FOUND" →
      (cnameRecordReply (.decoded respMap)).result = .returns ("NOT_FOUND", none)) ∧
    (∀ msgs, index respMap "msgs" = .arr msgs → (∀ y ∈ msgs, otherCode y) →
      (cnameRecordReply (.decoded respMap)).result
        = .returns ("", some (.new [.lit "dyn: could not get fqdn: ", .v (.obj respMap)]))) ∧
    (∀ pre x post, index respMap "msgs" = .arr (pre ++ x :: post) →
      (∀ y ∈ pre, otherCode y) → errCd x = none →
      (cnameRecordReply (.decoded respMap)).result = .panics .typeAssertion) ∧
    ((∀ msgs, index respMap "msgs" ≠ .arr msgs) →
      (cnameRecordReply (.decoded respMap)).result = .panics .typeAssertion) := by
  have hne : neStr (index respMap "status") "success" = true := neStr_eq_true.mpr hst
  refine ⟨?_, ?_, ?_, ?_⟩
  · intro pre x post hm hpre hx
    simp [cnameRecordReply, hne, hm, scanMsgs_append pre _ hpre, scanMsgs_found x post hx]
  · intro msgs hm hall
    simp [cnameRecordReply, hne, hm, scanMsgs_other msgs hall]
  · intro pre x post hm hpre hx
    simp [cnameRecordReply, hne, hm, scanMsgs_append pre _ hpre, scanMsgs_bad x post hx]
  · intro hm
    cases h : index respMap "msgs" <;> simp [cnameRecordReply, hne, h]
    exact absurd h (hm _)

theorem cnameRecordReply_success (respMap : List (String × JVal))
    (hst : index respMap "status" = .str "success") :
    (∀ p, index respMap "data" = .arr [.str p] →
      (cnameRecordReply (.decoded respMap)).result = .returns (p, none)) ∧
    (∀ data, index respMap "data" = .arr data → data.length ≠ 1 →
      (cnameRecordReply (.decoded respMap)).result
        = .returns ("", some (.new [.lit "dyn: did not find exactly 1 record: ",
                                     .v (.arr data)]))) ∧
    (∀ d, index respMap "data" = .arr [d] → (∀ p, d ≠ .str p) →
      (cnameRecordReply (.decoded respMap)).result = .panics .typeAssertion) := by
  have hne : neStr (index respMap "status") "success" = false := neStr_eq_false.mpr hst
  refine ⟨?_, ?_, ?_⟩
  · intro p hd
    simp [cnameRecordReply, hne, hd]
  · intro data hd hlen
    match data, hlen with
    | [], _ => simp [cnameRecordReply, hne, hd]
    | [_], h => simp at h
    | _ :: _ :: _, _ => simp [cnameRecordReply, hne, hd]
  · intro d hd hns
    cases d <;> simp [cnameRecordReply, hne, hd]
    exact absurd rfl (hns _)

theorem sessionReply_decoded (respMap : List (String × JVal)) :
    (index respMap "status" = .str "success" →
      (∀ data token, index respMap "data" = .obj data → index data "token" = .str token →
        (sessionReply (.decoded respMap)).result = .returns (token, none)) ∧
      ((∀ data token, index respMap "data" = .obj data → index data "token" ≠ .str token) →
        (sessionReply (.decoded respMap)).result = .panics .typeAssertion)) ∧
    (index respMap "status" ≠ .str "success" →
      (sessionReply (.decoded respMap)).result
        = .returns ("", some (.new [.lit "dyn: login was not successful: ",
                                     .v (index respMap "msgs")]))) := by
  refine ⟨fun hst => ⟨?_, ?_⟩, fun hst => ?_⟩
  · intro data token hd ht
    simp [sessionReply, neStr_eq_false.mpr hst, hd, ht]
  · intro h
    cases hd : index respMap "data" <;> simp [sessionReply, neStr_eq_false.mpr hst, hd]
    rename_i data
    cases ht : index data "token" <;> simp [ht]
    exact absurd ht (h _ _ hd)
  · simp [sessionReply, neStr_eq_true.mpr hst]

/-! ## The properties of the specification -/

/-- C1 as stated fails: a lookup response `{status: "failure"}` without `msgs` makes
`cnameRecord` panic on the type assertion instead of returning a lookup error. -/
theorem cnameRecord_msgs_absent_panics :
    index [("status", .str "failure")] "status" ≠ .str "success" ∧
    index [("status", .str "failure")] "msgs" = .null ∧
    (cnameRecord urlEscapesOk scripted scenarioFlags ⟨"t0k3n"⟩
        [.decoded [("status", .str "failure")]]).result = .panics .typeAssertion := by
  refine ⟨by simp [index], by rfl, by rfl⟩

/-- C1 amended: for a decoded lookup response whose status is not "success",
`cnameRecord` returns "NOT_FOUND" with a nil error when `msgs` is a list whose
entries, up to and including the first with `ERR_CD` "NOT_FOUND", are objects with a
string `ERR_CD`; it returns the error "dyn: could not get fqdn: <respMap>" when `msgs`
is a list of objects that all have a string `ERR_CD` other than "NOT_FOUND"; and it
panics on a type assertion when `msgs` is not a list or an entry met before any
"NOT_FOUND" is not an object with a string `ERR_CD`. The response is that of a lookup
whose request was built: `http.NewRequest` accepted its URL. -/
theorem cnameRecord_not_success {σ : Type} (urlOk : String → Bool)
    (Do : σ → Request → Reply × σ) (f : Flags) (c : dynHTTPClient) (w : σ)
    (respMap : List (String × JVal))
    (hurl : urlOk (cnameRecordRequest f c).url = true)
    (hdo : (Do w (cnameRecordRequest f c)).1 = .decoded respMap)
    (hst : index respMap "status" ≠ .str "success") :
    (∀ pre x post, index respMap "msgs" = .arr (pre ++ x :: post) →
      (∀ y ∈ pre, otherCode y) → errCd x = some "NOT_FOUND" →
      (cnameRecord urlOk Do f c w).result = .returns ("NOT_FOUND", none)) ∧
    (∀ msgs, index respMap "msgs" = .arr msgs → (∀ y ∈ msgs, otherCode y) →
      (cnameRecord urlOk Do f c w).result
        = .returns ("", some (.new [.lit "dyn: could not get fqdn: ", .v (.obj respMap)]))) ∧
    (∀ pre x post, index respMap "msgs" = .arr (pre ++ x :: post) →
      (∀ y ∈ pre, otherCode y) → errCd x = none →
      (cnameRecord urlOk Do f c w).result = .panics .typeAssertion) ∧
    ((∀ msgs, index respMap "msgs" ≠ .arr msgs) →
      (cnameRecord urlOk Do f c w).result = .panics .typeAssertion) := by
  have hr : (cnameRecord urlOk Do f c w).result
      = (cnameRecordReply (.decoded respMap)).result := by
    simp [cnameRecord, hurl, hdo]
  rw [hr]
  exact cnameRecordReply_not_success respMap hst

/-- The amended C1 at the response `{status: "failure", msgs: [{ERR_CD: "NOT_FOUND"}]}`. -/
theorem cnameRecord_not_success_witness :
    (cnameRecord urlEscapesOk scripted scenarioFlags ⟨"t0k3n"⟩ [lookupNotFound]).result
      = .returns ("NOT_FOUND", none) :=
  (cnameRecord_not_success urlEscapesOk scripted scenarioFlags ⟨"t0k3n"⟩ [lookupNotFound]
      [("status", .str "failure"), ("msgs", .arr [.obj [("ERR_CD", .str "NOT_FOUND")]])]
      (by rfl) (by rfl) (by simp [index])).1
    [] (.obj [("ERR_CD", .str "NOT_FOUND")]) [] (by rfl) (by simp) (by rfl)

/-- C2 as stated fails: a "success" response whose data list has exactly one item
that is not a string makes `cnameRecord` panic instead of returning `data[0]`. -/
theorem cnameRecord_single_number_panics :
    index [("status", .str "success"), ("data", .arr [.num 42])] "status" = .str "success" ∧
    index [("status", .str "success"), ("data", .arr [.num 42])] "data" = .arr [.num 42] ∧
    (cnameRecord urlEscapesOk scripted scenarioFlags ⟨"t0k3n"⟩
        [.decoded [("status", .str "success"), ("data", .arr [.num 42])]]).result
      = .panics .typeAssertion := by
  refine ⟨by rfl, by rfl, by rfl⟩

/-- C2 amended: for a decoded lookup response whose status is "success",
`cnameRecord` returns `data[0]` with a nil error when the data list has exactly one
item and that item is a string, and returns the error
"dyn: did not find exactly 1 record: <data>" (and the empty string) when the data list
has any other length; a single item that is not a string makes it panic. The response
is that of a lookup whose request was built: `http.NewRequest` accepted its URL. -/
theorem cnameRecord_success {σ : Type} (urlOk : String → Bool)
    (Do : σ → Request → Reply × σ) (f : Flags) (c : dynHTTPClient) (w : σ)
    (respMap : List (String × JVal))
    (hurl : urlOk (cnameRecordRequest f c).url = true)
    (hdo : (Do w (cnameRecordRequest f c)).1 = .decoded respMap)
    (hst : index respMap "status" = .str "success") :
    (∀ p, index respMap "data" = .arr [.str p] →
      (cnameRecord urlOk Do f c w).result = .returns (p, none)) ∧
    (∀ data, index respMap "data" = .arr data → data.length ≠ 1 →
      (cnameRecord urlOk Do f c w).result
        = .returns ("", some (.new [.lit "dyn: did not find exactly 1 record: ",
                                     .v (.arr data)]))) ∧
    (∀ d, index respMap "data" = .arr [d] → (∀ p, d ≠ .str p) →
      (cnameRecord urlOk Do f c w).result = .panics .typeAssertion) := by
  have hr : (cnameRecord urlOk Do f c w).result
      = (cnameRecordReply (.decoded respMap)).result := by
    simp [cnameRecord, hurl, hdo]
  rw [hr]
  exact cnameRecordReply_success respMap hst

/-- The amended C2 at the "success" response whose data list is the single path
`/REST/CNAMERecord/ft.com/www.ft.com/12345/`. -/
theorem cnameRecord_success_witness :
    (cnameRecord urlEscapesOk scripted scenarioFlags ⟨"t0k3n"⟩
        [lookupFound "/REST/CNAMERecord/ft.com/www.ft.com/12345/"]).result
      = .returns ("/REST/CNAMERecord/ft.com/www.ft.com/12345/", none) :=
  (cnameRecord_success urlEscapesOk scripted scenarioFlags ⟨"t0k3n"⟩
      [lookupFound "/REST/CNAMERecord/ft.com/www.ft.com/12345/"]
      [("status", .str "success"),
        ("data", .arr [.str "/REST/CNAMERecord/ft.com/www.ft.com/12345/"])]
      (by rfl) (by rfl) (by rfl)).1
    "/REST/CNAMERecord/ft.com/www.ft.com/12345/" (by rfl)

/-- C3 as stated fails: on the "success" response `{data: {token: ""}}` the method
`session` returns the empty token with a nil error. -/
theorem session_empty_token :
    index [("status", .str "success"), ("data", .obj [("token", .str "")])] "status"
      = .str "success" ∧
    (session scripted scenarioFlags ⟨""⟩
        [.decoded [("status", .str "success"), ("data", .obj [("token", .str "")])]]).result
      = .returns ("", none) := by
  refine ⟨by rfl, by rfl⟩

/-- C3 amended: for a decoded authentication response, when the status is "success"
and `data` is an object whose `token` is a string, `session` returns that string
(empty or not) with a nil error; when `data` is not an object or `token` not a string
it panics; when the status is anything else it returns the empty string and the error
"dyn: login was not successful: <msgs>". -/
theorem session_decoded {σ : Type} (Do : σ → Request → Reply × σ) (f : Flags)
    (c : dynHTTPClient) (w : σ) (respMap : List (String × JVal))
    (hdo : (Do w (sessionRequest f)).1 = .decoded respMap) :
    (index respMap "status" = .str "success" →
      (∀ data token, index respMap "data" = .obj data → index data "token" = .str token →
        (session Do f c w).result = .returns (token, none)) ∧
      ((∀ data token, index respMap "data" = .obj data → index data "token" ≠ .str token) →
        (session Do f c w).result = .panics .typeAssertion)) ∧
    (index respMap "status" ≠ .str "success" →
      (session Do f c w).result
        = .returns ("", some (.new [.lit "dyn: login was not successful: ",
                                     .v (index respMap "msgs")]))) := by
  have hr : (session Do f c w).result = (sessionReply (.decoded respMap)).result := by
    simp [session, hdo]
  rw [hr]
  exact sessionReply_decoded respMap

/-- The amended C3 at the response `{status: "success", data: {token: "t0k3n"}}`. -/
theorem session_decoded_witness :
    (session scripted scenarioFlags ⟨""⟩ [authOk]).result = .returns ("t0k3n", none) :=
  ((session_decoded scripted scenarioFlags ⟨""⟩ [authOk]
      [("status", .str "success"), ("data", .obj [("token", .str "t0k3n")])] (by rfl)).1
    (by rfl)).1 [("token", .str "t0k3n")] "t0k3n" (by rfl) (by rfl)

/-- C4 as stated fails: with the single data item "NOT_FOUND" the lookup reports one
existing record, yet `main` calls `createCNAMERecord` and never `updateCNAMERecord`. -/
theorem main_found_path_NOT_FOUND_creates :
    (cnameRecordReply (lookupFound "NOT_FOUND")).result = .returns ("NOT_FOUND", none) ∧
    calls (main urlEscapesOk scripted scenarioFlags
        [authOk, lookupFound "NOT_FOUND", statusOk, statusOk]).events
      = [.session, .cnameRecord, .createCNAMERecord, .publish] := by
  refine ⟨by rfl, by rfl⟩

/-- C4 amended: in every run in which `session` returns a token with a nil error, the
lookup request is built (`http.NewRequest` accepts its URL) and the lookup response has
status "success" and the single string data item `p`, with `p` other than "NOT_FOUND",
`main` never calls `createCNAMERecord`, calls `updateCNAMERecord` with `p` only, and
its calls are session, cnameRecord, updateCNAMERecord(p), followed by publish exactly
when the update returned a nil error. -/
theorem main_updates_found_record {σ : Type} (urlOk : String → Bool)
    (Do : σ → Request → Reply × σ) (f : Flags)
    (w : σ) (token : String) (respMap : List (String × JVal)) (p : String)
    (hauth : (session Do f ⟨""⟩ w).result = .returns (token, none))
    (hurl : urlOk (cnameRecordRequest f ⟨token⟩).url = true)
    (hreply : (Do (session Do f ⟨""⟩ w).world (cnameRecordRequest f ⟨token⟩)).1
      = .decoded respMap)
    (hst : index respMap "status" = .str "success")
    (hdata : index respMap "data" = .arr [.str p])
    (hp : p ≠ "NOT_FOUND") :
    Method.createCNAMERecord ∉ calls (main urlOk Do f w).events ∧
    (∀ r, Method.updateCNAMERecord r ∈ calls (main urlOk Do f w).events → r = p) ∧
    (Event.ret (.updateCNAMERecord p) none ∈ (main urlOk Do f w).events →
      calls (main urlOk Do f w).events
        = [.session, .cnameRecord, .updateCNAMERecord p, .publish]) ∧
    (Event.ret (.updateCNAMERecord p) none ∉ (main urlOk Do f w).events →
      calls (main urlOk Do f w).events = [.session, .cnameRecord, .updateCNAMERecord p]) := by
  have hl : (cnameRecord urlOk Do f ⟨token⟩ (session Do f ⟨""⟩ w).world).result
      = .returns (p, none) := by
    simp [cnameRecord, hurl, hreply, cnameRecordReply, neStr_eq_false.mpr hst, hdata]
  simp only [main, hauth, mainLookup, hl, mainChange, if_neg hp, mainPublish]
  split <;> [skip; skip; split] <;> simp

/-- The amended C4 on scenario B: the record exists at
`/REST/CNAMERecord/ft.com/www.ft.com/12345/`. -/
theorem main_updates_found_record_witness :
    calls (main urlEscapesOk scripted scenarioFlags
        [authOk, lookupFound "/REST/CNAMERecord/ft.com/www.ft.com/12345/", statusOk,
          statusOk]).events
      = [.session, .cnameRecord,
          .updateCNAMERecord "/REST/CNAMERecord/ft.com/www.ft.com/12345/", .publish] :=
  (main_updates_found_record urlEscapesOk scripted scenarioFlags
      [authOk, lookupFound "/REST/CNAMERecord/ft.com/www.ft.com/12345/", statusOk, statusOk]
      "t0k3n"
      [("status", .str "success"),
        ("data", .arr [.str "/REST/CNAMERecord/ft.com/www.ft.com/12345/"])]
      "/REST/CNAMERecord/ft.com/www.ft.com/12345/"
      (by rfl) (by rfl) (by rfl) (by rfl) (by rfl) (by decide)).2.2.1
    (List.getElem?_mem (n := 14) (by rfl))

/-- C5 as stated fails: after a successful authentication and a NotFound lookup, a
failing `createCNAMERecord` ends the run, so the calls stop at create and `publish` is
not among them. -/
theorem main_create_failure_stops :
    (cnameRecordReply lookupNotFound).result = .returns ("NOT_FOUND", none) ∧
    calls (main urlEscapesOk scripted scenarioFlags
        [authOk, lookupNotFound, statusFailure]).events
      = [.session, .cnameRecord, .createCNAMERecord] := by
  refine ⟨by rfl, by rfl⟩

/-- C5 amended: in every run in which `session` returns a token with a nil error and
`cnameRecord` returns "NOT_FOUND" with a nil error, `main` never calls
`updateCNAMERecord`, and its calls are session, cnameRecord, createCNAMERecord, followed
by publish exactly when the create returned a nil error. -/
theorem main_creates_missing_record {σ : Type} (urlOk : String → Bool)
    (Do : σ → Request → Reply × σ) (f : Flags)
    (w : σ) (token : String)
    (hauth : (session Do f ⟨""⟩ w).result = .returns (token, none))
    (hlookup : (cnameRecord urlOk Do f ⟨token⟩ (session Do f ⟨""⟩ w).world).result
      = .returns ("NOT_FOUND", none)) :
    (∀ r, Method.updateCNAMERecord r ∉ calls (main urlOk Do f w).events) ∧
    (Event.ret .createCNAMERecord none ∈ (main urlOk Do f w).events →
      calls (main urlOk Do f w).events
        = [.session, .cnameRecord, .createCNAMERecord, .publish]) ∧
    (Event.ret .createCNAMERecord none ∉ (main urlOk Do f w).events →
      calls (main urlOk Do f w).events = [.session, .cnameRecord, .createCNAMERecord]) := by
  simp only [main, hauth, mainLookup, hlookup, mainChange, if_true, mainPublish]
  split <;> [skip; skip; split] <;> simp

/-- The amended C5 on scenario A: the record is absent and every later phase succeeds. -/
theorem main_creates_missing_record_witness :
    calls (main urlEscapesOk scripted scenarioFlags
        [authOk, lookupNotFound, statusOk, statusOk]).events
      = [.session, .cnameRecord, .createCNAMERecord, .publish] :=
  (main_creates_missing_record urlEscapesOk scripted scenarioFlags
      [authOk, lookupNotFound, statusOk, statusOk] "t0k3n" (by rfl) (by rfl)).2.1
    (List.getElem?_mem (n := 11) (by rfl))

/-- C6: every error is terminal. In every run, the return of a non-nil error by a
method is the last event of the log (no request, call or print follows it) and `main`
ends by panicking with that error. Phase by phase: when `session` returns an error,
when `cnameRecord` returns an error after a successful `session`, when
`createCNAMERecord` or `updateCNAMERecord` returns an error after a successful lookup,
and when `publish` returns an error after a successful create or update, `main` ends by
panicking with that very error, its calls stop at the failing method and its requests
are those issued up to and including the request of the failing method. In particular a
failed authentication response ends the run with the login error after the one session
request, and a lookup response with status "success" and a data list of any length but
one ends the run with the "exactly 1 record" error after the session and lookup
requests, without create, update or publish. -/
theorem main_error_terminal {σ : Type} (urlOk : String → Bool)
    (Do : σ → Request → Reply × σ) (f : Flags) (w : σ) :
    (∀ pre m e post, (main urlOk Do f w).events = pre ++ Event.ret m (some e) :: post →
      post = [] ∧ (main urlOk Do f w).outcome = some (.error e)) ∧
    (∀ t e w₁ ev₁, session Do f ⟨""⟩ w = ⟨w₁, ev₁, .returns (t, some e)⟩ →
      (main urlOk Do f w).outcome = some (.error e) ∧
      calls (main urlOk Do f w).events = [.session] ∧
      requests (main urlOk Do f w).events = [sessionRequest f]) ∧
    (∀ token t e w₁ ev₁ w₂ ev₂,
      session Do f ⟨""⟩ w = ⟨w₁, ev₁, .returns (token, none)⟩ →
      cnameRecord urlOk Do f ⟨token⟩ w₁ = ⟨w₂, ev₂, .returns (t, some e)⟩ →
      (main urlOk Do f w).outcome = some (.error e) ∧
      calls (main urlOk Do f w).events = [.session, .cnameRecord] ∧
      requests (main urlOk Do f w).events
        = [sessionRequest f, cnameRecordRequest f ⟨token⟩]) ∧
    (∀ token e w₁ ev₁ w₂ ev₂ w₃ ev₃,
      session Do f ⟨""⟩ w = ⟨w₁, ev₁, .returns (token, none)⟩ →
      cnameRecord urlOk Do f ⟨token⟩ w₁ = ⟨w₂, ev₂, .returns ("NOT_FOUND", none)⟩ →
      createCNAMERecord urlOk Do f ⟨token⟩ w₂ = ⟨w₃, ev₃, .returns (some e)⟩ →
      (main urlOk Do f w).outcome = some (.error e) ∧
      calls (main urlOk Do f w).events = [.session, .cnameRecord, .createCNAMERecord] ∧
      requests (main urlOk Do f w).events
        = [sessionRequest f, cnameRecordRequest f ⟨token⟩,
            createCNAMERecordRequest f ⟨token⟩]) ∧
    (∀ token p e w₁ ev₁ w₂ ev₂ w₃ ev₃,
      session Do f ⟨""⟩ w = ⟨w₁, ev₁, .returns (token, none)⟩ →
      cnameRecord urlOk Do f ⟨token⟩ w₁ = ⟨w₂, ev₂, .returns (p, none)⟩ →
      p ≠ "NOT_FOUND" →
      updateCNAMERecord urlOk Do f ⟨token⟩ p w₂ = ⟨w₃, ev₃, .returns (some e)⟩ →
      (main urlOk Do f w).outcome = some (.error e) ∧
      calls (main urlOk Do f w).events = [.session, .cnameRecord, .updateCNAMERecord p] ∧
      requests (main urlOk Do f w).events
        = [sessionRequest f, cnameRecordRequest f ⟨token⟩,
            updateCNAMERecordRequest f ⟨token⟩ p]) ∧
    (∀ token e w₁ ev₁ w₂ ev₂ w₃ ev₃ w₄ ev₄,
      session Do f ⟨""⟩ w = ⟨w₁, ev₁, .returns (token, none)⟩ →
      cnameRecord urlOk Do f ⟨token⟩ w₁ = ⟨w₂, ev₂, .returns ("NOT_FOUND", none)⟩ →
      createCNAMERecord urlOk Do f ⟨token⟩ w₂ = ⟨w₃, ev₃, .returns none⟩ →
      publish urlOk Do f ⟨token⟩ w₃ = ⟨w₄, ev₄, .returns (some e)⟩ →
      (main urlOk Do f w).outcome = some (.error e) ∧
      calls (main urlOk Do f w).events
        = [.session, .cnameRecord, .createCNAMERecord, .publish] ∧
      requests (main urlOk Do f w).events
        = [sessionRequest f, cnameRecordRequest f ⟨token⟩,
            createCNAMERecordRequest f ⟨token⟩, publishRequest f ⟨token⟩]) ∧
    (∀ token p e w₁ ev₁ w₂ ev₂ w₃ ev₃ w₄ ev₄,
      session Do f ⟨""⟩ w = ⟨w₁, ev₁, .returns (token, none)⟩ →
      cnameRecord urlOk Do f ⟨token⟩ w₁ = ⟨w₂, ev₂, .returns (p, none)⟩ →
      p ≠ "NOT_FOUND" →
      updateCNAMERecord urlOk Do f ⟨token⟩ p w₂ = ⟨w₃, ev₃, .returns none⟩ →
      publish urlOk Do f ⟨token⟩ w₃ = ⟨w₄, ev₄, .returns (some e)⟩ →
      (main urlOk Do f w).outcome = some (.error e) ∧
      calls (main urlOk Do f w).events
        = [.session, .cnameRecord, .updateCNAMERecord p, .publish] ∧
      requests (main urlOk Do f w).events
        = [sessionRequest f, cnameRecordRequest f ⟨token⟩,
            updateCNAMERecordRequest f ⟨token⟩ p, publishRequest f ⟨token⟩]) ∧
    (∀ respMap, (Do w (sessionRequest f)).1 = .decoded respMap →
      index respMap "status" ≠ .str "success" →
      (main urlOk Do f w).outcome
        = some (.error (.new [.lit "dyn: login was not successful: ",
                               .v (index respMap "msgs")])) ∧
      calls (main urlOk Do f w).events = [.session] ∧
      requests (main urlOk Do f w).events = [sessionRequest f]) ∧
    (∀ token respMap data, (session Do f ⟨""⟩ w).result = .returns (token, none) →
      urlOk (cnameRecordRequest f ⟨token⟩).url = true →
      (Do (session Do f ⟨""⟩ w).world (cnameRecordRequest f ⟨token⟩)).1 = .decoded respMap →
      index respMap "status" = .str "success" → index respMap "data" = .arr data →
      data.length ≠ 1 →
      (main urlOk Do f w).outcome
        = some (.error (.new [.lit "dyn: did not find exactly 1 record: ", .v (.arr data)])) ∧
      calls (main urlOk Do f w).events = [.session, .cnameRecord] ∧
      requests (main urlOk Do f w).events
        = [sessionRequest f, cnameRecordRequest f ⟨token⟩]) := by
  refine ⟨?_, ?_, ?_, ?_, ?_, ?_, ?_, ?_, ?_⟩
  · intro pre m e post hE
    rcases main_error_cases urlOk Do f w with h | ⟨A, m₀, e₀, hA, hno, hout⟩
    · exact absurd (by simp [hE]) (h m e)
    · obtain ⟨-, hz, hpost⟩ :=
        split_unique isErrRet (fun y hy ⟨m₁, e₁, h₁⟩ => hno m₁ e₁ (h₁ ▸ hy)) (by simp)
          ⟨m, e, rfl⟩ (hA.symm.trans hE)
      simp at hz
      exact ⟨hpost, by rw [hout, hz.2]⟩
  · intro t e w₁ ev₁ hs
    have hsr : (session Do f ⟨""⟩ w).result = .returns (t, some e) := by rw [hs]
    simp only [main, hsr]
    simp
  · intro token t e w₁ ev₁ w₂ ev₂ hs hl
    have hsr : (session Do f ⟨""⟩ w).result = .returns (token, none) := by rw [hs]
    have hsw : (session Do f ⟨""⟩ w).world = w₁ := by rw [hs]
    have hlr : (cnameRecord urlOk Do f ⟨token⟩ w₁).result = .returns (t, some e) := by rw [hl]
    simp only [main, hsr, hsw, mainLookup, hlr]
    simp [requests_cnameRecord, cnameRecord_returns urlOk Do f ⟨token⟩ w₁ _ hlr]
  · intro token e w₁ ev₁ w₂ ev₂ w₃ ev₃ hs hl hc
    have hsr : (session Do f ⟨""⟩ w).result = .returns (token, none) := by rw [hs]
    have hsw : (session Do f ⟨""⟩ w).world = w₁ := by rw [hs]
    have hlr : (cnameRecord urlOk Do f ⟨token⟩ w₁).result = .returns ("NOT_FOUND", none) := by
      rw [hl]
    have hlw : (cnameRecord urlOk Do f ⟨token⟩ w₁).world = w₂ := by rw [hl]
    have hcr : (createCNAMERecord urlOk Do f ⟨token⟩ w₂).result = .returns (some e) := by
      rw [hc]
    simp only [main, hsr, hsw, mainLookup, hlr, hlw, mainChange, if_true, hcr]
    simp [requests_cnameRecord, cnameRecord_returns urlOk Do f ⟨token⟩ w₁ _ hlr,
      requests_createCNAMERecord, createCNAMERecord_returns urlOk Do f ⟨token⟩ w₂ _ hcr]
  · intro token p e w₁ ev₁ w₂ ev₂ w₃ ev₃ hs hl hp hu
    have hsr : (session Do f ⟨""⟩ w).result = .returns (token, none) := by rw [hs]
    have hsw : (session Do f ⟨""⟩ w).world = w₁ := by rw [hs]
    have hlr : (cnameRecord urlOk Do f ⟨token⟩ w₁).result = .returns (p, none) := by rw [hl]
    have hlw : (cnameRecord urlOk Do f ⟨token⟩ w₁).world = w₂ := by rw [hl]
    have hur : (updateCNAMERecord urlOk Do f ⟨token⟩ p w₂).result = .returns (some e) := by
      rw [hu]
    simp only [main, hsr, hsw, mainLookup, hlr, hlw, mainChange, if_neg hp, hur]
    simp [requests_cnameRecord, cnameRecord_returns urlOk Do f ⟨token⟩ w₁ _ hlr,
      requests_updateCNAMERecord, updateCNAMERecord_returns urlOk Do f ⟨token⟩ p w₂ _ hur]
  · intro token e w₁ ev₁ w₂ ev₂ w₃ ev₃ w₄ ev₄ hs hl hc hpb
    have hsr : (session Do f ⟨""⟩ w).result = .returns (token, none) := by rw [hs]
    have hsw : (session Do f ⟨""⟩ w).world = w₁ := by rw [hs]
    have hlr : (cnameRecord urlOk Do f ⟨token⟩ w₁).result = .returns ("NOT_FOUND", none) := by
      rw [hl]
    have hlw : (cnameRecord urlOk Do f ⟨token⟩ w₁).world = w₂ := by rw [hl]
    have hcr : (createCNAMERecord urlOk Do f ⟨token⟩ w₂).result = .returns none := by rw [hc]
    have hcw : (createCNAMERecord urlOk Do f ⟨token⟩ w₂).world = w₃ := by rw [hc]
    have hpr : (publish urlOk Do f ⟨token⟩ w₃).result = .returns (some e) := by rw [hpb]
    simp only [main, hsr, hsw, mainLookup, hlr, hlw, mainChange, if_true, hcr, hcw,
      mainPublish, hpr]
    simp [requests_cnameRecord, cnameRecord_returns urlOk Do f ⟨token⟩ w₁ _ hlr,
      requests_createCNAMERecord, createCNAMERecord_returns urlOk Do f ⟨token⟩ w₂ _ hcr,
      requests_publish, publish_returns urlOk Do f ⟨token⟩ w₃ _ hpr]
  · intro token p e w₁ ev₁ w₂ ev₂ w₃ ev₃ w₄ ev₄ hs hl hp hu hpb
    have hsr : (session Do f ⟨""⟩ w).result = .returns (token, none) := by rw [hs]
    have hsw : (session Do f ⟨""⟩ w).world = w₁ := by rw [hs]
    have hlr : (cnameRecord urlOk Do f ⟨token⟩ w₁).result = .returns (p, none) := by rw [hl]
    have hlw : (cnameRecord urlOk Do f ⟨token⟩ w₁).world = w₂ := by rw [hl]
    have hur : (updateCNAMERecord urlOk Do f ⟨token⟩ p w₂).result = .returns none := by
      rw [hu]
    have huw : (updateCNAMERecord urlOk Do f ⟨token⟩ p w₂).world = w₃ := by rw [hu]
    have hpr : (publish urlOk Do f ⟨token⟩ w₃).result = .returns (some e) := by rw [hpb]
    simp only [main, hsr, hsw, mainLookup, hlr, hlw, mainChange, if_neg hp, hur, huw,
      mainPublish, hpr]
    simp [requests_cnameRecord, cnameRecord_returns urlOk Do f ⟨token⟩ w₁ _ hlr,
      requests_updateCNAMERecord, updateCNAMERecord_returns urlOk Do f ⟨token⟩ p w₂ _ hur,
      requests_publish, publish_returns urlOk Do f ⟨token⟩ w₃ _ hpr]
  · intro respMap hr hst
    have hs : (session Do f ⟨""⟩ w).result
        = .returns ("", some (.new [.lit "dyn: login was not successful: ",
                                     .v (index respMap "msgs")])) := by
      simp [session, hr, sessionReply, neStr_eq_true.mpr hst]
    simp only [main, hs]
    simp
  · intro token respMap data hauth hurl hr hst hdata hlen
    have hl : (cnameRecord urlOk Do f ⟨token⟩ (session Do f ⟨""⟩ w).world).result
        = .returns ("", some (.new [.lit "dyn: did not find exactly 1 record: ",
                                     .v (.arr data)])) := by
      match data, hlen with
      | [], _ => simp [cnameRecord, hurl, hr, cnameRecordReply, neStr_eq_false.mpr hst, hdata]
      | [_], h => simp at h
      | _ :: _ :: _, _ =>
        simp [cnameRecord, hurl, hr, cnameRecordReply, neStr_eq_false.mpr hst, hdata]
    simp only [main, hauth, mainLookup, hl]
    simp [requests_cnameRecord, hurl]

/-- C6 on two runs: in scenario C the authentication response `{status: "failure",
msgs: ["bad password"]}` ends the run with the login error after the session request;
and in a run where the record is absent and the create response is a failure, the run
ends with the create error after the create request, without publish. -/
theorem main_error_terminal_witness :
    ((main urlEscapesOk scripted scenarioFlags
        [.decoded [("status", .str "failure"), ("msgs", .arr [.str "bad password"])],
          lookupNotFound, statusOk, statusOk]).outcome
      = some (.error (.new [.lit "dyn: login was not successful: ",
                             .v (.arr [.str "bad password"])])) ∧
    calls (main urlEscapesOk scripted scenarioFlags
        [.decoded [("status", .str "failure"), ("msgs", .arr [.str "bad password"])],
          lookupNotFound, statusOk, statusOk]).events = [.session] ∧
    requests (main urlEscapesOk scripted scenarioFlags
        [.decoded [("status", .str "failure"), ("msgs", .arr [.str "bad password"])],
          lookupNotFound, statusOk, statusOk]).events = [sessionRequest scenarioFlags]) ∧
    ((main urlEscapesOk scripted scenarioFlags
        [authOk, lookupNotFound, statusFailure, statusOk]).outcome
      = some (.error (.new [.lit "dyn: Failed to create CNAME: ",
                             .v (.arr [.str "denied"])])) ∧
    calls (main urlEscapesOk scripted scenarioFlags
        [authOk, lookupNotFound, statusFailure, statusOk]).events
      = [.session, .cnameRecord, .createCNAMERecord] ∧
    requests (main urlEscapesOk scripted scenarioFlags
        [authOk, lookupNotFound, statusFailure, statusOk]).events
      = [sessionRequest scenarioFlags, cnameRecordRequest scenarioFlags ⟨"t0k3n"⟩,
          createCNAMERecordRequest scenarioFlags ⟨"t0k3n"⟩]) :=
  ⟨(main_error_terminal urlEscapesOk scripted scenarioFlags
      [.decoded [("status", .str "failure"), ("msgs", .arr [.str "bad password"])],
        lookupNotFound, statusOk, statusOk]).2.2.2.2.2.2.2.1
    [("status", .str "failure"), ("msgs", .arr [.str "bad password"])] (by rfl)
    (by simp [index]),
   (main_error_terminal urlEscapesOk scripted scenarioFlags
      [authOk, lookupNotFound, statusFailure, statusOk]).2.2.2.1
    "t0k3n" (.new [.lit "dyn: Failed to create CNAME: ", .v (.arr [.str "denied"])])
    _ _ _ _ _ _ (by rfl) (by rfl) (by rfl)⟩

/-- C7: in every run, `createCNAMERecord` and `updateCNAMERecord` together are called at
most once, and whenever `publish` is called, exactly one of them was called before that
call and had returned a nil error before it. -/
theorem main_create_xor_update {σ : Type} (urlOk : String → Bool)
    (Do : σ → Request → Reply × σ) (f : Flags) (w : σ) :
    ((calls (main urlOk Do f w).events).filter isChange).length ≤ 1 ∧
    ∀ pre post, (main urlOk Do f w).events = pre ++ Event.call .publish :: post →
      ∃ m, isChange m = true ∧ (calls pre).filter isChange = [m] ∧ Event.ret m none ∈ pre := by
  refine ⟨main_change_le_one urlOk Do f w, ?_⟩
  intro pre post hE
  rcases main_publish_cases urlOk Do f w with h | ⟨A, B, m, hA, hnoA, hnoB, hm, hc, hr⟩
  · exact absurd (by simp [hE]) h
  · obtain ⟨rfl, -, -⟩ :=
      split_unique (fun y => y = Event.call .publish) (fun y hy h => hnoA (h ▸ hy))
        (fun y hy h => hnoB (h ▸ hy)) rfl (hA.symm.trans hE)
    exact ⟨m, hm, hc, hr⟩

/-- C8 as stated fails: in scenario A, where every phase succeeds, the last text
printed is "Succesfully published", not the confirmation. -/
theorem main_last_print_is_published :
    (main urlEscapesOk scripted scenarioFlags [authOk, lookupNotFound, statusOk, statusOk]).outcome = none ∧
    (stdout (main urlEscapesOk scripted scenarioFlags
        [authOk, lookupNotFound, statusOk, statusOk]).events).getLast?
      = some [.lit "Succesfully published\n"] ∧
    confirmation scenarioFlags = [.lit "Updated CNAME for www.ft.com to lb.aws.com\n"] := by
  refine ⟨by rfl, by rfl, by rfl⟩

/-- C8 amended: in every run in which `main` returns (every phase succeeded), the
output ends with the confirmation "Updated CNAME for <fqdn> to <host>" followed by the
final line "Succesfully published"; `publish` prints the confirmation exactly when
its request is built (`http.NewRequest` accepts the URL) and the publish response
decoded with status "success"; and in every run the
confirmation is printed only if `publish` returned a nil error and `main` returned. -/
theorem main_success_prints {σ : Type} (urlOk : String → Bool)
    (Do : σ → Request → Reply × σ) (f : Flags) (w : σ) :
    ((main urlOk Do f w).outcome = none →
      [confirmation f, [.lit "Succesfully published\n"]] <:+ stdout (main urlOk Do f w).events) ∧
    (∀ c v, Event.print (confirmation f) ∈ (publish urlOk Do f c v).events ↔
      urlOk (publishRequest f c).url = true ∧
      ∃ respMap, (Do v (publishRequest f c)).1 = .decoded respMap ∧
        index respMap "status" = .str "success") ∧
    (Event.print (confirmation f) ∈ (main urlOk Do f w).events →
      Event.ret .publish none ∈ (main urlOk Do f w).events ∧ (main urlOk Do f w).outcome = none) := by
  refine ⟨?_, ?_, ?_⟩
  · simp only [main, mainLookup, mainChange]
    split
    · simp
    · simp
    · split
      · simp
      · simp
      · split
        · split
          · simp
          · simp
          · exact mainPublish_success urlOk Do f _ _ _
        · split
          · simp
          · simp
          · exact mainPublish_success urlOk Do f _ _ _
  · intro c v
    simp only [publish]
    split
    · rename_i hu
      simp [hu, publishReply_confirmation]
    · rename_i hu
      simp [hu]
  · simp only [main, mainLookup, mainChange]
    split
    · simp [session_no_confirmation]
    · simp [session_no_confirmation]
    · split
      · simp [session_no_confirmation, cnameRecord_no_confirmation]
      · simp [session_no_confirmation, cnameRecord_no_confirmation]
      · split
        · split
          · simp [session_no_confirmation, cnameRecord_no_confirmation,
              createCNAMERecord_no_confirmation, currentFQDN_ne_confirmation]
          · simp [session_no_confirmation, cnameRecord_no_confirmation,
              createCNAMERecord_no_confirmation, currentFQDN_ne_confirmation]
          · refine mainPublish_confirmation urlOk Do f _ _ _ ?_
            simp [session_no_confirmation, cnameRecord_no_confirmation,
              createCNAMERecord_no_confirmation, currentFQDN_ne_confirmation]
        · split
          · simp [session_no_confirmation, cnameRecord_no_confirmation,
              updateCNAMERecord_no_confirmation, currentFQDN_ne_confirmation]
          · simp [session_no_confirmation, cnameRecord_no_confirmation,
              updateCNAMERecord_no_confirmation, currentFQDN_ne_confirmation]
          · refine mainPublish_confirmation urlOk Do f _ _ _ ?_
            simp [session_no_confirmation, cnameRecord_no_confirmation,
              updateCNAMERecord_no_confirmation, currentFQDN_ne_confirmation]

/-- The amended C8 on scenario A: the output ends with the confirmation for
`www.ft.com` and `lb.aws.com`, then "Succesfully published". -/
theorem main_success_prints_witness :
    [[Piece.lit "Updated CNAME for www.ft.com to lb.aws.com\n"],
      [Piece.lit "Succesfully published\n"]]
      <:+ stdout (main urlEscapesOk scripted scenarioFlags
        [authOk, lookupNotFound, statusOk, statusOk]).events :=
  (main_success_prints urlEscapesOk scripted scenarioFlags
    [authOk, lookupNotFound, statusOk, statusOk]).1 (by rfl)

/-- C9: in every run the first request is the authentication request, which has no
`Auth-Token` header; every later request carries the header `Auth-Token` with exactly
the token `session` returned; `dynClient.token` is assigned exactly once, with that
token, in a run where `session` returns a nil error, and never in any other run; the
client holds that token at the end; and the assignment comes after the session call has
returned, when the session request is the only request issued, with no assignment
after it. -/
theorem main_auth_token {σ : Type} (urlOk : String → Bool)
    (Do : σ → Request → Reply × σ) (f : Flags) (w : σ) :
    (requests (main urlOk Do f w).events).head? = some (sessionRequest f) ∧
    headerValues (sessionRequest f) "Auth-Token" = [] ∧
    (∀ r ∈ (requests (main urlOk Do f w).events).tail, ∃ token,
      (session Do f ⟨""⟩ w).result = .returns (token, none) ∧
      headerValues r "Auth-Token" = [token]) ∧
    (∀ token, (session Do f ⟨""⟩ w).result = .returns (token, none) →
      tokenWrites (main urlOk Do f w).events = [token] ∧ (main urlOk Do f w).client.token = token) ∧
    ((∀ token, (session Do f ⟨""⟩ w).result ≠ .returns (token, none)) →
      tokenWrites (main urlOk Do f w).events = []) ∧
    (∀ pre t post, (main urlOk Do f w).events = pre ++ Event.setToken t :: post →
      requests pre = [sessionRequest f] ∧ calls pre = [.session] ∧
      Event.ret .session none ∈ pre ∧ tokenWrites post = []) := by
  refine ⟨?_, ?_, ?_, ?_, ?_, ?_⟩
  · simp only [main, mainLookup, mainChange, mainPublish]
    split <;> [skip; skip; (split <;> [skip; skip; (split <;> (split <;> [skip; skip; split]))])]
      <;> simp
  · simp [headerValues, sessionRequest]
  · simp only [main]
    split
    · simp
    · simp
    · rename_i token hs
      rw [mainLookup_events]
      simp only [requests_append, requests_cons_call, requests_cons_ret,
        requests_cons_setToken, requests_nil, requests_session, List.append_nil,
        List.singleton_append, List.tail_cons]
      intro r hr
      exact ⟨token, hs, mainLookup_header urlOk Do f ⟨token⟩ _ [] (by simp) r hr⟩
  · intro token hs
    simp only [main, hs, mainLookup, mainChange, mainPublish]
    split <;> [skip; skip; (split <;> (split <;> [skip; skip; split]))] <;>
      simp
  · intro hs
    simp only [main]
    split
    · simp
    · simp
    · rename_i token h
      exact absurd h (hs token)
  · intro pre t post hE
    rcases main_tokenWrite_cases urlOk Do f w with h | ⟨A, B, token, hA, hnoA, hnoB, hreq, hcalls, hret⟩
    · exact absurd (by simp [hE]) (h t)
    · obtain ⟨rfl, -, rfl⟩ :=
        split_unique isTokenWrite (fun y hy ⟨t₁, h₁⟩ => hnoA t₁ (h₁ ▸ hy))
          (fun y hy ⟨t₁, h₁⟩ => hnoB t₁ (h₁ ▸ hy)) ⟨t, rfl⟩ (hA.symm.trans hE)
      exact ⟨hreq, hcalls, hret, tokenWrites_eq_nil _ hnoB⟩
/-- C10 as stated fails: for the record path `/REST/%zz/` the URL has a percent sign
that starts no escape, `http.NewRequest` returns a nil request, and
`updateCNAMERecord` sends nothing and panics on the nil request. -/
theorem updateCNAMERecord_bad_escape_sends_nothing :
    urlEscapesOk (updateCNAMERecordRequest scenarioFlags ⟨"t0k3n"⟩ "/REST/%zz/").url = false ∧
    requests (updateCNAMERecord urlEscapesOk scripted scenarioFlags ⟨"t0k3n"⟩ "/REST/%zz/"
        [statusOk]).events = [] ∧
    (updateCNAMERecord urlEscapesOk scripted scenarioFlags ⟨"t0k3n"⟩ "/REST/%zz/"
        [statusOk]).result = .panics .nilDeref := by
  refine ⟨by rfl, by rfl, by rfl⟩

/-- C10 amended: for every host and every record path whose URL `http.NewRequest`
accepts, `updateCNAMERecord` issues exactly one request, a PUT to the base URL followed
by the record path, with the body `createCNAMERecord` sends, `{rdata: {cname: host},
ttl: 600}`; the request is the same for any flags with the same host and any client
with the same token; a second update issues the same request as the first; and against
a remote that keeps the payload of the last request it accepted, a second update leaves
the remote state of the first, which is this body when the request is accepted. -/
theorem updateCNAMERecord_request {σ : Type} (urlOk : String → Bool)
    (Do : σ → Request → Reply × σ) (f : Flags) (c : dynHTTPClient) (p : String) (w : σ)
    (hurl : urlOk (updateCNAMERecordRequest f c p).url = true) :
    requests (updateCNAMERecord urlOk Do f c p w).events = [updateCNAMERecordRequest f c p] ∧
    (updateCNAMERecordRequest f c p).method = "PUT" ∧
    (updateCNAMERecordRequest f c p).url = "https://api.dynect.net" ++ p ∧
    (updateCNAMERecordRequest f c p).body = (createCNAMERecordRequest f c).body ∧
    (updateCNAMERecordRequest f c p).body
      = some (.obj [("rdata", .obj [("cname", .str f.host)]), ("ttl", .num 600)]) ∧
    (∀ g d, g.host = f.host → d.token = c.token →
      updateCNAMERecordRequest g d p = updateCNAMERecordRequest f c p) ∧
    requests (updateCNAMERecord urlOk Do f c p
        (updateCNAMERecord urlOk Do f c p w).world).events
      = requests (updateCNAMERecord urlOk Do f c p w).events ∧
    (∀ accepts st,
      (updateCNAMERecord urlOk (remoteRecord accepts) f c p
          (updateCNAMERecord urlOk (remoteRecord accepts) f c p st).world).world
        = (updateCNAMERecord urlOk (remoteRecord accepts) f c p st).world ∧
      (accepts (updateCNAMERecordRequest f c p) = true →
        (updateCNAMERecord urlOk (remoteRecord accepts) f c p st).world
          = some (.obj [("rdata", .obj [("cname", .str f.host)]), ("ttl", .num 600)]))) := by
  refine ⟨?_, rfl, rfl, rfl, rfl, ?_, ?_, ?_⟩
  · simp [requests_updateCNAMERecord, hurl]
  · intro g d hf hc
    simp [updateCNAMERecordRequest, updateCNAMERecordBody, hf, hc]
  · simp [requests_updateCNAMERecord]
  · intro accepts st
    by_cases h : accepts (updateCNAMERecordRequest f c p) = true
    · simp [updateCNAMERecord, hurl, remoteRecord, h]
      rfl
    · simp [updateCNAMERecord, hurl, remoteRecord, h]

/-- The amended C10 on scenario B: the update of the record at
`/REST/CNAMERecord/ft.com/www.ft.com/12345/` issues the one PUT to that path. -/
theorem updateCNAMERecord_request_witness :
    requests (updateCNAMERecord urlEscapesOk scripted scenarioFlags ⟨"t0k3n"⟩
        "/REST/CNAMERecord/ft.com/www.ft.com/12345/" [statusOk]).events
      = [updateCNAMERecordRequest scenarioFlags ⟨"t0k3n"⟩
          "/REST/CNAMERecord/ft.com/www.ft.com/12345/"] :=
  (updateCNAMERecord_request urlEscapesOk scripted scenarioFlags ⟨"t0k3n"⟩
    "/REST/CNAMERecord/ft.com/www.ft.com/12345/" [statusOk] (by rfl)).1

end DynClient
